import Mathlib

/-!
Shallow embedding of the email-triage service:
`src/server/storage.ts` (class `DatabaseStorage`, the in-memory backend),
`src/server/services/openai.ts` (AI classification client) and
`src/server/services/email.js` (class `EmailService`).

Conventions of the embedding:
* timestamps (`Date` values) are modelled as `Nat` milliseconds; each operation
  that calls `new Date()` receives the current time as an explicit `now` argument;
* JS `Map<number, T>` is modelled as a `List T` in insertion order together with
  the `Map.set` semantics (replace in place when the key exists, append otherwise);
* `Array.prototype.sort` (stable since ES2019) with a numeric key comparator is
  modelled by a stable insertion sort;
* nullable / optional JS values are `Option`; JS truthiness coercions (`x || d`)
  are modelled field-by-field (`"" `, `0`, `null`/`undefined` are falsy; objects,
  non-empty strings, non-zero numbers and arrays - including `[]` - are truthy);
* raw 0.0-1.0 confidence scores are exact rationals (`ℚ`), `Math.round` is
  `⌊q + 1/2⌋`;
* the upstream AI provider is nondeterministic: each wrapped call receives an
  `Upstream` value describing what the provider did (request threw, content did
  not JSON-parse, or a parsed payload whose schema-declared fields are each
  either absent or present).
-/

set_option linter.unusedVariables false

/-- JS `v || d` for an optional string `v` (absent, `null` and `""` are falsy). -/
def jsOrStr (v : Option String) (d : String) : String :=
  match v with
  | some s => if s = "" then d else s
  | none => d

/-- JS `v || null` for an optional string (`""` collapses to `null`). -/
def jsOrStrNull (v : Option String) : Option String :=
  match v with
  | some s => if s = "" then none else some s
  | none => none

/-- JS `v || d` for an optional number (absent, `null` and `0` are falsy). -/
def jsOrNum (v : Option ℚ) (d : ℚ) : ℚ :=
  match v with
  | some q => if q = 0 then d else q
  | none => d

/-- JS `v || null` for an optional integer (`0` collapses to `null`),
as in `confidence: responseData.confidence || null` in `createEmailResponse`. -/
def jsOrIntNull (v : Option Int) : Option Int :=
  match v with
  | some n => if n = 0 then none else some n
  | none => none

/-- `Math.max(0, Math.min(1, q))`. -/
def clamp01 (q : ℚ) : ℚ := max 0 (min 1 q)

/-- JS `Math.round` (round half toward positive infinity). -/
def jsRound (q : ℚ) : Int := Int.floor (q + 1/2)

/-- Stable insert for insertion sort: place `a` before the first element `b`
with `le a b`. -/
def insertLe {α : Type} (le : α → α → Bool) (a : α) : List α → List α
  | [] => [a]
  | b :: bs => if le a b then a :: b :: bs else b :: insertLe le a bs

/-- Stable insertion sort; models `Array.prototype.sort` with a numeric-key
comparator (JS sort is stable). -/
def insortLe {α : Type} (le : α → α → Bool) : List α → List α
  | [] => []
  | a :: as => insertLe le a (insortLe le as)

/-- `needle.isPrefixOf hay` on character lists (JS `String.startsWith`). -/
def prefOf : List Char → List Char → Bool
  | [], _ => true
  | _ :: _, [] => false
  | a :: as, b :: bs => a == b && prefOf as bs

/-- JS `hay.includes(needle)` on character lists: substring containment. -/
def containsSub (needle : List Char) : List Char → Bool
  | [] => needle.isEmpty
  | c :: t => prefOf needle (c :: t) || containsSub needle t

/-- JS `String.prototype.toLowerCase`, restricted to the ASCII range
(the repository's data and queries are ASCII). -/
def jsToLower (s : String) : String := String.mk (s.data.map Char.toLower)

/-- The merged `extractedInfo` blob that `processEmail` assembles
(extraction results plus both confidence scores, priority keywords and
sentiment reasoning). -/
structure ExtractedInfo where
  phoneNumbers : List String
  alternateEmails : List String
  customerRequirements : List String
  sentimentIndicators : List String
  sentimentReasoning : String
  priorityKeywords : List String
  sentimentConfidence : ℚ
  priorityConfidence : ℚ
  deriving DecidableEq, Repr

/-- The persisted `Email` record (shared schema / `storage.ts`). -/
structure Email where
  id : Nat
  sender : String
  subject : String
  body : String
  receivedAt : Nat
  priority : String
  sentiment : String
  category : Option String
  extractedInfo : Option ExtractedInfo
  isProcessed : Bool
  createdAt : Nat
  deriving DecidableEq, Repr

/-- The persisted `EmailResponse` record. -/
structure EmailResponse where
  id : Nat
  emailId : Nat
  generatedResponse : String
  isEdited : Bool
  finalResponse : Option String
  sentAt : Option Nat
  confidence : Option Int
  createdAt : Nat
  deriving DecidableEq, Repr

/-- The in-memory state of `DatabaseStorage`: the two `Map`s (insertion-ordered
lists of records) and the two id counters. -/
structure Storage where
  emails : List Email
  responses : List EmailResponse
  nextEmailId : Nat
  nextResponseId : Nat
  deriving DecidableEq, Repr

/-- `Map.set` on the emails map keyed by `id`: replace in place or append. -/
def setEmail : List Email → Email → List Email
  | [], x => [x]
  | e :: es, x => if e.id == x.id then x :: es else e :: setEmail es x

/-- `Map.set` on the responses map keyed by `id`: replace in place or append. -/
def setResponse : List EmailResponse → EmailResponse → List EmailResponse
  | [], x => [x]
  | r :: rs, x => if r.id == x.id then x :: rs else r :: setResponse rs x

/-- Descending comparator key `receivedAt` (`(a, b) => b.receivedAt - a.receivedAt`). -/
def recvDesc (a b : Email) : Bool := decide (b.receivedAt ≤ a.receivedAt)

/-- Descending comparator key `createdAt` for responses. -/
def createdDesc (a b : EmailResponse) : Bool := decide (b.createdAt ≤ a.createdAt)

/-- `DatabaseStorage.getEmails(limit, offset)`: sort all emails by `receivedAt`
descending, then `slice(offset, offset + limit)`. -/
def getEmails (st : Storage) (limit offset : Nat) : List Email :=
  ((insortLe recvDesc st.emails).drop offset).take limit

/-- `DatabaseStorage.getEmailById(id)`: map lookup by numeric id. -/
def getEmailById (st : Storage) (id : Nat) : Option Email :=
  st.emails.find? (fun e => e.id == id)

/-- Insert data accepted by `createEmail`. -/
structure InsertEmail where
  sender : String
  subject : String
  body : String
  receivedAt : Nat
  priority : String
  sentiment : String
  category : Option String
  extractedInfo : Option ExtractedInfo
  isProcessed : Bool
  deriving DecidableEq, Repr

/-- `DatabaseStorage.createEmail(emailData)`: assign `nextEmailId++` and
`createdAt = new Date()`; `category || null`, `extractedInfo || null`
(an object is always truthy), `isProcessed || false`. -/
def createEmail (st : Storage) (d : InsertEmail) (now : Nat) : Email × Storage :=
  let e : Email :=
    { id := st.nextEmailId
      sender := d.sender
      subject := d.subject
      body := d.body
      receivedAt := d.receivedAt
      priority := d.priority
      sentiment := d.sentiment
      category := jsOrStrNull d.category
      extractedInfo := d.extractedInfo
      isProcessed := d.isProcessed
      createdAt := now }
  (e, { st with emails := setEmail st.emails e, nextEmailId := st.nextEmailId + 1 })

/-- One email matches a search query: case-insensitive substring of
`subject`, `body` or `sender` (OR). -/
def matchesQuery (q : String) (e : Email) : Bool :=
  let lq := (jsToLower q).data
  containsSub lq (jsToLower e.subject).data ||
  containsSub lq (jsToLower e.body).data ||
  containsSub lq (jsToLower e.sender).data

/-- `DatabaseStorage.searchEmails(query)`: filter then sort by `receivedAt`
descending. -/
def searchEmails (st : Storage) (q : String) : List Email :=
  insortLe recvDesc (st.emails.filter (matchesQuery q))

/-- `DatabaseStorage.getResponsesByEmailId(emailId)`: filter by `emailId`,
sort by `createdAt` descending. -/
def getResponsesByEmailId (st : Storage) (emailId : Nat) : List EmailResponse :=
  insortLe createdDesc (st.responses.filter (fun r => r.emailId == emailId))

/-- Insert data accepted by `createEmailResponse`; optional fields model
possibly-`undefined` JS arguments. -/
structure InsertEmailResponse where
  emailId : Nat
  generatedResponse : String
  isEdited : Option Bool
  finalResponse : Option String
  sentAt : Option Nat
  confidence : Option Int
  deriving DecidableEq, Repr

/-- `DatabaseStorage.createEmailResponse(responseData)`: assign
`nextResponseId++`; `isEdited || false`, `finalResponse || null`,
`sentAt || null` (a `Date` object is always truthy), `confidence || null`
(the number `0` is falsy and collapses to `null`). -/
def createEmailResponse (st : Storage) (d : InsertEmailResponse) (now : Nat) :
    EmailResponse × Storage :=
  let r : EmailResponse :=
    { id := st.nextResponseId
      emailId := d.emailId
      generatedResponse := d.generatedResponse
      isEdited := d.isEdited.getD false
      finalResponse := jsOrStrNull d.finalResponse
      sentAt := d.sentAt
      confidence := jsOrIntNull d.confidence
      createdAt := now }
  (r, { st with responses := setResponse st.responses r,
                nextResponseId := st.nextResponseId + 1 })

/-- A partial update passed to `updateEmailResponse` (`Partial<EmailResponse>`
restricted to the keys the service actually sends); the outer `Option` is
"key present in the update object". -/
structure RespUpdate where
  finalResponse : Option (Option String) := none
  sentAt : Option (Option Nat) := none
  isEdited : Option Bool := none
  deriving DecidableEq, Repr

/-- JS object spread `{ ...existing, ...updates }` for the modelled keys. -/
def applyUpdate (r : EmailResponse) (u : RespUpdate) : EmailResponse :=
  { r with
    finalResponse := u.finalResponse.getD r.finalResponse
    sentAt := u.sentAt.getD r.sentAt
    isEdited := u.isEdited.getD r.isEdited }

/-- `DatabaseStorage.updateEmailResponse(id, updates)`: throws when the id is
absent (state unchanged), otherwise merges and re-`set`s the record. -/
def updateEmailResponse (st : Storage) (id : Nat) (u : RespUpdate) :
    Except String EmailResponse × Storage :=
  match st.responses.find? (fun r => r.id == id) with
  | none => (Except.error ("EmailResponse with id " ++ toString id ++ " not found"), st)
  | some r =>
      let r' := applyUpdate r u
      (Except.ok r', { st with responses := setResponse st.responses r' })

/-- Result shape of `getEmailStats`; `pendingEmails` is a plain JS number and
can in principle go negative, hence `Int`. -/
structure EmailStats where
  totalEmails : Nat
  urgentEmails : Nat
  resolvedEmails : Nat
  pendingEmails : Int
  deriving DecidableEq, Repr

/-- `DatabaseStorage.getEmailStats()`: `resolvedEmails` counts the **responses**
whose `sentAt` is neither `null` nor `undefined`; `pendingEmails` is
`totalEmails - resolvedEmails`. -/
def getEmailStats (st : Storage) : EmailStats :=
  let totalEmails := st.emails.length
  let urgentEmails := (st.emails.filter (fun e => e.priority == "urgent")).length
  let resolvedEmails := (st.responses.filter (fun r => r.sentAt.isSome)).length
  { totalEmails := totalEmails
    urgentEmails := urgentEmails
    resolvedEmails := resolvedEmails
    pendingEmails := (totalEmails : Int) - (resolvedEmails : Int) }

/-- Result shape of `getSentimentDistribution` (integer percentages). -/
structure SentimentDistribution where
  positive : Int
  negative : Int
  neutral : Int
  deriving DecidableEq, Repr

/-- `DatabaseStorage.getSentimentDistribution()`: all-zero when there are no
emails, otherwise each of the three enumerated sentiments is counted and
independently rounded to `Math.round((count / total) * 100)`; no
renormalization. -/
def getSentimentDistribution (st : Storage) : SentimentDistribution :=
  let total := st.emails.length
  if total = 0 then { positive := 0, negative := 0, neutral := 0 }
  else
    let pos := (st.emails.filter (fun e => e.sentiment == "positive")).length
    let neg := (st.emails.filter (fun e => e.sentiment == "negative")).length
    let neu := (st.emails.filter (fun e => e.sentiment == "neutral")).length
    { positive := jsRound (((pos : ℚ) / (total : ℚ)) * 100)
      negative := jsRound (((neg : ℚ) / (total : ℚ)) * 100)
      neutral := jsRound (((neu : ℚ) / (total : ℚ)) * 100) }

/-- What the upstream AI provider did for one wrapped call (`openai.ts`):
the request (or anything before `JSON.parse`) threw, the message content
failed to `JSON.parse`, or a JSON object payload was obtained (each
schema-declared field either absent/null or present with its declared type). -/
inductive Upstream (α : Type) where
  | err : Upstream α
  | badJson : Upstream α
  | ok : α → Upstream α
  deriving DecidableEq, Repr

/-- Parsed payload fields read by `analyzeSentiment`. -/
structure SentimentPayload where
  sentiment : Option String := none
  confidence : Option ℚ := none
  reasoning : Option String := none
  deriving DecidableEq, Repr

/-- Result shape `SentimentAnalysis` of `openai.ts`. -/
structure SentimentAnalysis where
  sentiment : String
  confidence : ℚ
  reasoning : String
  deriving DecidableEq, Repr

/-- `analyzeSentiment` (`openai.ts`): on a parsed payload coerce each field
with `|| default` and clamp the confidence; on any thrown failure return the
catch-branch defaults. -/
def analyzeSentiment : Upstream SentimentPayload → SentimentAnalysis
  | Upstream.ok p =>
      { sentiment := jsOrStr p.sentiment "neutral"
        confidence := clamp01 (jsOrNum p.confidence (1/2))
        reasoning := jsOrStr p.reasoning "Unable to determine reasoning" }
  | _ =>
      { sentiment := "neutral", confidence := 1/2, reasoning := "Error during analysis" }

/-- Parsed payload fields read by `analyzePriority`. -/
structure PriorityPayload where
  priority : Option String := none
  confidence : Option ℚ := none
  keywords : Option (List String) := none
  deriving DecidableEq, Repr

/-- Result shape `PriorityAnalysis` of `openai.ts`. -/
structure PriorityAnalysis where
  priority : String
  confidence : ℚ
  keywords : List String
  deriving DecidableEq, Repr

/-- `analyzePriority` (`openai.ts`). -/
def analyzePriority : Upstream PriorityPayload → PriorityAnalysis
  | Upstream.ok p =>
      { priority := jsOrStr p.priority "normal"
        confidence := clamp01 (jsOrNum p.confidence (1/2))
        keywords := p.keywords.getD [] }
  | _ =>
      { priority := "normal", confidence := 1/2, keywords := [] }

/-- Parsed payload fields read by `extractInformation`. -/
structure ExtractPayload where
  phoneNumbers : Option (List String) := none
  alternateEmails : Option (List String) := none
  category : Option String := none
  customerRequirements : Option (List String) := none
  sentimentIndicators : Option (List String) := none
  deriving DecidableEq, Repr

/-- Result shape `EmailInformation` of `openai.ts`. -/
structure EmailInformation where
  phoneNumbers : List String
  alternateEmails : List String
  category : String
  customerRequirements : List String
  sentimentIndicators : List String
  deriving DecidableEq, Repr

/-- `extractInformation` (`openai.ts`); an array value - even `[]` - is truthy,
so `result.xs || []` is `Option.getD`. -/
def extractInformation : Upstream ExtractPayload → EmailInformation
  | Upstream.ok p =>
      { phoneNumbers := p.phoneNumbers.getD []
        alternateEmails := p.alternateEmails.getD []
        category := jsOrStr p.category "General Inquiry"
        customerRequirements := p.customerRequirements.getD []
        sentimentIndicators := p.sentimentIndicators.getD [] }
  | _ =>
      { phoneNumbers := [], alternateEmails := [], category := "General Inquiry"
        customerRequirements := [], sentimentIndicators := [] }

/-- Parsed payload fields read by `generateResponse`. -/
structure GenPayload where
  response : Option String := none
  tone : Option String := none
  confidence : Option ℚ := none
  deriving DecidableEq, Repr

/-- Result shape `ResponseGeneration` of `openai.ts`. -/
structure ResponseGeneration where
  response : String
  tone : String
  confidence : ℚ
  deriving DecidableEq, Repr

/-- The deterministic tone selection at the top of `generateResponse`. -/
def toneInstruction (sentiment priority : String) : String :=
  if sentiment = "negative" then
    "empathetic and apologetic while being solution-focused"
  else if priority = "urgent" then
    "urgent yet reassuring, acknowledging the importance of their request"
  else
    "professional and helpful"

/-- `generateResponse` (`openai.ts`); `emailBody`, `subject`, `sender` and
`extractedInfo` only shape the prompt (hence the upstream behaviour `u`),
not the coercion of the reply. -/
def generateResponse (u : Upstream GenPayload) (emailBody subject sender : String)
    (sentiment priority : String) : ResponseGeneration :=
  match u with
  | Upstream.ok p =>
      { response := jsOrStr p.response "Thank you for your email. We will get back to you shortly."
        tone := jsOrStr p.tone (toneInstruction sentiment priority)
        confidence := clamp01 (jsOrNum p.confidence (4/5)) }
  | _ =>
      { response := "Thank you for contacting us. We have received your email and will respond within 24 hours. If this is urgent, please call our support line."
        tone := "professional"
        confidence := 1/2 }

/-- The upstream provider's behaviour for the (up to) four calls a single
`processEmail` invocation makes. -/
structure AIWorld where
  sentimentU : Upstream SentimentPayload
  priorityU : Upstream PriorityPayload
  extractU : Upstream ExtractPayload
  genU : Upstream GenPayload
  deriving Repr

/-- The view `processEmail` returns (`ProcessedEmail` in `email.js`). -/
structure ProcessedEmail where
  id : Nat
  sender : String
  subject : String
  body : String
  receivedAt : Nat
  priority : String
  sentiment : String
  category : String
  extractedInfo : Option ExtractedInfo
  hasResponse : Bool
  generatedResponse : Option String
  deriving DecidableEq, Repr

/-- The `emailData` record assembled by `EmailService.processEmail` from the
three analysis results. -/
def emailInsertOf (w : AIWorld) (sender subject body : String) (receivedAt : Nat) :
    InsertEmail :=
  let sa := analyzeSentiment w.sentimentU
  let pa := analyzePriority w.priorityU
  let ex := extractInformation w.extractU
  { sender := sender
    subject := subject
    body := body
    receivedAt := receivedAt
    priority := pa.priority
    sentiment := sa.sentiment
    category := some ex.category
    extractedInfo := some
      { phoneNumbers := ex.phoneNumbers
        alternateEmails := ex.alternateEmails
        customerRequirements := ex.customerRequirements
        sentimentIndicators := ex.sentimentIndicators
        sentimentReasoning := sa.reasoning
        priorityKeywords := pa.keywords
        sentimentConfidence := sa.confidence
        priorityConfidence := pa.confidence }
    isProcessed := true }

/-- `EmailService.processEmail(sender, subject, body, receivedAt)`: run the
three analyses, persist the annotated email, auto-draft a response iff the
priority is `"urgent"`, and return the combined view. -/
def processEmail (w : AIWorld) (st : Storage) (sender subject body : String)
    (receivedAt now : Nat) : ProcessedEmail × Storage :=
  let sa := analyzeSentiment w.sentimentU
  let pa := analyzePriority w.priorityU
  let step := createEmail st (emailInsertOf w sender subject body receivedAt) now
  let email := step.1
  let st1 := step.2
  let draft :=
    if pa.priority = "urgent" then
      let rd := generateResponse w.genU body subject sender sa.sentiment pa.priority
      let ins : InsertEmailResponse :=
        { emailId := email.id
          generatedResponse := rd.response
          confidence := some (jsRound (rd.confidence * 100))
          isEdited := some false
          finalResponse := none
          sentAt := none }
      let created := createEmailResponse st1 ins now
      (some created.1.generatedResponse, created.2)
    else (none, st1)
  ({ id := email.id
     sender := email.sender
     subject := email.subject
     body := email.body
     receivedAt := email.receivedAt
     priority := email.priority
     sentiment := email.sentiment
     category := jsOrStr email.category "General Inquiry"
     extractedInfo := email.extractedInfo
     hasResponse := match draft.1 with
       | some s => !(s = "")
       | none => false
     generatedResponse := draft.1 }, draft.2)

/-- The fixed fallback draft text in `generateResponseForEmail`'s catch branch. -/
def fallbackResponseText : String :=
  "Dear Customer,\n\nThank you for reaching out to us. We have received your message and our team will review it carefully.\n\nWe will get back to you within 24 hours with a detailed response to address your inquiry.\n\nBest regards,\nSupport Team"

/-- `EmailService.generateResponseForEmail(emailId)`: return the existing
draft when one exists; otherwise generate, persist and return; any thrown
failure (in particular "Email not found") is caught and the fixed fallback
text returned with nothing persisted. -/
def generateResponseForEmail (w : Upstream GenPayload) (st : Storage)
    (emailId : Nat) (now : Nat) : String × Storage :=
  match getEmailById st emailId with
  | none => (fallbackResponseText, st)
  | some email =>
      match getResponsesByEmailId st emailId with
      | existing :: _ => (existing.generatedResponse, st)
      | [] =>
          let rd := generateResponse w email.body email.subject email.sender
            (jsOrStr (some email.sentiment) "neutral")
            (jsOrStr (some email.priority) "normal")
          let ins : InsertEmailResponse :=
            { emailId := email.id
              generatedResponse := rd.response
              confidence := some (jsRound (rd.confidence * 100))
              isEdited := some false
              finalResponse := none
              sentAt := none }
          let created := createEmailResponse st ins now
          (created.1.generatedResponse, created.2)

/-- `EmailService.sendResponse(emailId, finalResponse)`: throws when the email
has no responses (state unchanged); otherwise updates the head of the
`createdAt`-descending response list with `finalResponse`, `sentAt = now`,
`isEdited = (finalResponse !== generatedResponse)`. -/
def sendResponse (st : Storage) (emailId : Nat) (finalResponse : String)
    (now : Nat) : Except String Unit × Storage :=
  match getResponsesByEmailId st emailId with
  | [] => (Except.error "No response found for this email", st)
  | r :: _ =>
      let u : RespUpdate :=
        { finalResponse := some (some finalResponse)
          sentAt := some (some now)
          isEdited := some (finalResponse != r.generatedResponse) }
      let step := updateEmailResponse st r.id u
      match step.1 with
      | Except.error e => (Except.error e, step.2)
      | Except.ok _ => (Except.ok (), step.2)

/-- Well-formedness of a storage state, maintained by construction in the JS
`Map`s: record ids are unique and below the id counters, and responses refer
to already-allocated email ids. -/
def WFStorage (st : Storage) : Prop :=
  (∀ e ∈ st.emails, e.id < st.nextEmailId) ∧
  (∀ r ∈ st.responses, r.id < st.nextResponseId) ∧
  (st.emails.map Email.id).Nodup ∧
  (st.responses.map EmailResponse.id).Nodup ∧
  (∀ r ∈ st.responses, r.emailId < st.nextEmailId)

instance (st : Storage) : Decidable (WFStorage st) := by
  unfold WFStorage; infer_instance

/-- Number of responses in a list with a non-null `sentAt`. -/
def countSentIn (l : List EmailResponse) : Nat :=
  (l.filter (fun r => r.sentAt.isSome)).length

/-- Number of responses with a non-null `sentAt` (what the code counts as
"resolved"). -/
def countSentResponses (st : Storage) : Nat := countSentIn st.responses

/-- Modelled from the spec: "count of distinct emails having ≥ 1 response with
non-null `sentAt`" - the quantity the spec says `resolvedEmails` equals. -/
def distinctResolvedEmails (st : Storage) : Nat :=
  (st.emails.filter
    (fun e => st.responses.any (fun r => r.emailId == e.id && r.sentAt.isSome))).length

/-! ### List lemmas about the stable sort, map-set and lookup helpers -/

theorem insertLe_perm {α : Type} (le : α → α → Bool) (a : α) :
    ∀ l : List α, (insertLe le a l).Perm (a :: l)
  | [] => List.Perm.refl _
  | b :: bs => by
      rw [insertLe]
      by_cases h : le a b = true
      · rw [if_pos h]
      · rw [if_neg h]
        exact (List.Perm.cons b (insertLe_perm le a bs)).trans (List.Perm.swap a b bs)

theorem insortLe_perm {α : Type} (le : α → α → Bool) :
    ∀ l : List α, (insortLe le l).Perm l
  | [] => List.Perm.refl _
  | a :: as =>
      (insertLe_perm le a (insortLe le as)).trans (List.Perm.cons a (insortLe_perm le as))

theorem mem_insertLe {α : Type} (le : α → α → Bool) (a x : α) (l : List α) :
    x ∈ insertLe le a l ↔ x = a ∨ x ∈ l := by
  rw [(insertLe_perm le a l).mem_iff, List.mem_cons]

theorem mem_insortLe {α : Type} (le : α → α → Bool) (l : List α) (x : α) :
    x ∈ insortLe le l ↔ x ∈ l :=
  (insortLe_perm le l).mem_iff

theorem insortLe_eq_nil {α : Type} (le : α → α → Bool) (l : List α) :
    insortLe le l = [] ↔ l = [] := by
  constructor
  · intro h
    have hlen := (insortLe_perm le l).length_eq
    rw [h] at hlen
    exact List.length_eq_zero.mp hlen.symm
  · intro h
    rw [h]
    rfl

theorem insertLe_sorted {α : Type} {le : α → α → Bool}
    (htot : ∀ x y, le x y = true ∨ le y x = true)
    (htrans : ∀ x y z, le x y = true → le y z = true → le x z = true)
    (a : α) : ∀ l : List α, l.Pairwise (fun x y => le x y = true) →
      (insertLe le a l).Pairwise (fun x y => le x y = true)
  | [], _ => by simp [insertLe]
  | b :: bs, h => by
      rw [List.pairwise_cons] at h
      obtain ⟨hb, hbs⟩ := h
      rw [insertLe]
      by_cases hab : le a b = true
      · rw [if_pos hab, List.pairwise_cons]
        refine ⟨?_, List.pairwise_cons.mpr ⟨hb, hbs⟩⟩
        intro y hy
        rcases List.mem_cons.mp hy with rfl | hy
        · exact hab
        · exact htrans a b y hab (hb y hy)
      · rw [if_neg hab, List.pairwise_cons]
        have hba : le b a = true := (htot a b).resolve_left hab
        refine ⟨?_, insertLe_sorted htot htrans a bs hbs⟩
        intro y hy
        rcases (mem_insertLe le a y bs).mp hy with rfl | hy
        · exact hba
        · exact hb y hy

theorem insortLe_sorted {α : Type} {le : α → α → Bool}
    (htot : ∀ x y, le x y = true ∨ le y x = true)
    (htrans : ∀ x y z, le x y = true → le y z = true → le x z = true) :
    ∀ l : List α, (insortLe le l).Pairwise (fun x y => le x y = true)
  | [] => by simp [insortLe]
  | a :: as => insertLe_sorted htot htrans a (insortLe le as)
      (insortLe_sorted htot htrans as)

theorem find?_append_none {α : Type} (p : α → Bool) :
    ∀ (l₁ l₂ : List α), (∀ y ∈ l₁, p y = false) →
      List.find? p (l₁ ++ l₂) = List.find? p l₂
  | [], l₂, _ => rfl
  | a :: l₁, l₂, h => by
      rw [List.cons_append, List.find?_cons_of_neg, find?_append_none p l₁ l₂ ?_]
      · intro y hy
        exact h y (List.mem_cons_of_mem a hy)
      · simp [h a (List.mem_cons_self a l₁)]

theorem find?_key_of_nodup {α : Type} (key : α → Nat) :
    ∀ (l : List α) (x : α), x ∈ l → (l.map key).Nodup →
      l.find? (fun y => key y == key x) = some x
  | a :: t, x, hmem, hnd => by
      rw [List.map_cons, List.nodup_cons] at hnd
      obtain ⟨hka, hndt⟩ := hnd
      by_cases hk : key a = key x
      · have hxa : x = a := by
          rcases List.mem_cons.mp hmem with rfl | hxt
          · rfl
          · exact absurd (hk ▸ List.mem_map_of_mem key hxt) hka
        rw [List.find?_cons_of_pos _ (by simp [hk])]
        rw [hxa]
      · have hxt : x ∈ t := by
          rcases List.mem_cons.mp hmem with rfl | hxt
          · exact absurd rfl hk
          · exact hxt
        rw [List.find?_cons_of_neg _ (by simp [hk])]
        exact find?_key_of_nodup key t x hxt hndt

theorem setEmail_fresh : ∀ (l : List Email) (x : Email),
    (∀ y ∈ l, y.id ≠ x.id) → setEmail l x = l ++ [x]
  | [], x, _ => rfl
  | e :: es, x, h => by
      rw [setEmail, if_neg (by simp [h e (List.mem_cons_self e es)]),
        setEmail_fresh es x (fun y hy => h y (List.mem_cons_of_mem e hy)),
        List.cons_append]

theorem setResponse_fresh : ∀ (l : List EmailResponse) (x : EmailResponse),
    (∀ y ∈ l, y.id ≠ x.id) → setResponse l x = l ++ [x]
  | [], x, _ => rfl
  | r :: rs, x, h => by
      rw [setResponse, if_neg (by simp [h r (List.mem_cons_self r rs)]),
        setResponse_fresh rs x (fun y hy => h y (List.mem_cons_of_mem r hy)),
        List.cons_append]

theorem setResponse_decomp :
    ∀ (l : List EmailResponse) (x₀ x : EmailResponse), x₀ ∈ l →
      (l.map EmailResponse.id).Nodup → x.id = x₀.id →
      ∃ l₁ l₂, l = l₁ ++ x₀ :: l₂ ∧ setResponse l x = l₁ ++ x :: l₂ ∧
        (∀ y, y ∈ l₁ ∨ y ∈ l₂ → y.id ≠ x₀.id)
  | a :: t, x₀, x, hmem, hnd, hid => by
      rw [List.map_cons, List.nodup_cons] at hnd
      obtain ⟨hka, hndt⟩ := hnd
      by_cases hk : a.id = x.id
      · have hax : x₀ = a := by
          rcases List.mem_cons.mp hmem with rfl | hxt
          · rfl
          · exact absurd ((hk.trans hid) ▸ List.mem_map_of_mem EmailResponse.id hxt) hka
        refine ⟨[], t, by rw [hax, List.nil_append], ?_, ?_⟩
        · rw [setResponse, if_pos (by simp [hk]), List.nil_append]
        · intro y hy
          rcases hy with hy | hy
          · exact absurd hy (List.not_mem_nil y)
          · intro hyid
            exact hka (hax ▸ hyid ▸ List.mem_map_of_mem EmailResponse.id hy)
      · have hxt : x₀ ∈ t := by
          rcases List.mem_cons.mp hmem with rfl | hxt
          · exact absurd (hid.symm) hk
          · exact hxt
        obtain ⟨t₁, t₂, hsplit, hset, hids⟩ := setResponse_decomp t x₀ x hxt hndt hid
        refine ⟨a :: t₁, t₂, by rw [hsplit, List.cons_append], ?_, ?_⟩
        · rw [setResponse, if_neg (by simp [hk]), hset, List.cons_append]
        · intro y hy
          rcases hy with hy | hy
          · rcases List.mem_cons.mp hy with rfl | hy
            · rw [← hid]
              exact hk
            · exact hids y (Or.inl hy)
          · exact hids y (Or.inr hy)

theorem countSentIn_middle (l₁ l₂ : List EmailResponse) (y : EmailResponse) :
    countSentIn (l₁ ++ y :: l₂) =
      countSentIn l₁ + (if y.sentAt.isSome then 1 else 0) + countSentIn l₂ := by
  unfold countSentIn
  rw [List.filter_append, List.length_append, List.filter_cons]
  by_cases h : y.sentAt.isSome = true
  · rw [if_pos h, if_pos h]
    simp [List.length_cons]
    omega
  · rw [if_neg h, if_neg h]
    omega

/-! ### Pointwise-relation lemmas: replacing one response record in place
commutes with filtering and with the stable sort, provided the relation
preserves the filter predicate and the sort key. -/

theorem forall₂_filter_resp {R : EmailResponse → EmailResponse → Prop}
    {p : EmailResponse → Bool} (hp : ∀ x y, R x y → p x = p y) :
    ∀ {l l' : List EmailResponse}, List.Forall₂ R l l' →
      List.Forall₂ R (l.filter p) (l'.filter p)
  | _, _, List.Forall₂.nil => List.Forall₂.nil
  | _, _, List.Forall₂.cons hab h => by
      rename_i a b l l'
      rw [List.filter_cons, List.filter_cons]
      have hpb : p b = p a := (hp a b hab).symm
      by_cases hpa : p a = true
      · rw [if_pos hpa, if_pos (hpb.trans hpa)]
        exact List.Forall₂.cons hab (forall₂_filter_resp hp h)
      · rw [if_neg hpa, if_neg (fun hc => hpa (hpb ▸ hc))]
        exact forall₂_filter_resp hp h

theorem forall₂_insertLe_created {R : EmailResponse → EmailResponse → Prop}
    (hkey : ∀ x y, R x y → x.createdAt = y.createdAt)
    {a b : EmailResponse} (hab : R a b) :
    ∀ {l l' : List EmailResponse}, List.Forall₂ R l l' →
      List.Forall₂ R (insertLe createdDesc a l) (insertLe createdDesc b l')
  | _, _, List.Forall₂.nil => List.Forall₂.cons hab List.Forall₂.nil
  | _, _, List.Forall₂.cons hxy h => by
      rename_i x y l l'
      rw [insertLe, insertLe]
      have hcd : createdDesc a x = createdDesc b y := by
        unfold createdDesc
        rw [hkey a b hab, hkey x y hxy]
      by_cases hc : createdDesc a x = true
      · rw [if_pos hc, if_pos (hcd ▸ hc)]
        exact List.Forall₂.cons hab (List.Forall₂.cons hxy h)
      · rw [if_neg hc, if_neg (fun hc' => hc (hcd ▸ hc'))]
        exact List.Forall₂.cons hxy (forall₂_insertLe_created hkey hab h)

theorem forall₂_insortLe_created {R : EmailResponse → EmailResponse → Prop}
    (hkey : ∀ x y, R x y → x.createdAt = y.createdAt) :
    ∀ {l l' : List EmailResponse}, List.Forall₂ R l l' →
      List.Forall₂ R (insortLe createdDesc l) (insortLe createdDesc l')
  | _, _, List.Forall₂.nil => List.Forall₂.nil
  | _, _, List.Forall₂.cons hxy h =>
      forall₂_insertLe_created hkey hxy (forall₂_insortLe_created hkey h)

/-! ### Characterization of a successful `sendResponse` -/

/-- The record `sendResponse` writes for head response `r`. -/
def sentUpdateOf (r : EmailResponse) (finalResponse : String) (now : Nat) :
    EmailResponse :=
  { r with finalResponse := some finalResponse
           sentAt := some now
           isEdited := finalResponse != r.generatedResponse }

theorem head_responses_mem {st : Storage} {id : Nat} {r : EmailResponse}
    {rest : List EmailResponse} (h : getResponsesByEmailId st id = r :: rest) :
    r ∈ st.responses ∧ r.emailId = id := by
  have hmem : r ∈ getResponsesByEmailId st id := by
    rw [h]
    exact List.mem_cons_self r rest
  unfold getResponsesByEmailId at hmem
  have := List.mem_filter.mp ((mem_insortLe _ _ _).mp hmem)
  exact ⟨this.1, by simpa using this.2⟩


theorem sendResponse_eq_of_head {st : Storage} {id : Nat} {r : EmailResponse}
    {rest : List EmailResponse} (t : String) (now : Nat)
    (hnd : (st.responses.map EmailResponse.id).Nodup)
    (hresp : getResponsesByEmailId st id = r :: rest) :
    sendResponse st id t now =
      (Except.ok (), { st with responses := setResponse st.responses (sentUpdateOf r t now) }) := by
  have hfind : st.responses.find? (fun y => y.id == r.id) = some r :=
    find?_key_of_nodup EmailResponse.id st.responses r (head_responses_mem hresp).1 hnd
  unfold sendResponse
  rw [hresp]
  dsimp only
  unfold updateEmailResponse
  rw [hfind]
  rfl

theorem sendResponse_ok_decomp {st : Storage} {id : Nat} {t : String} {now : Nat}
    {st' : Storage} (hwf : WFStorage st)
    (h : sendResponse st id t now = (Except.ok (), st')) :
    ∃ r rest l₁ l₂,
      getResponsesByEmailId st id = r :: rest ∧
      r.emailId = id ∧
      st.responses = l₁ ++ r :: l₂ ∧
      st'.responses = l₁ ++ sentUpdateOf r t now :: l₂ ∧
      (∀ y, y ∈ l₁ ∨ y ∈ l₂ → y.id ≠ r.id) ∧
      st'.emails = st.emails ∧ st'.nextEmailId = st.nextEmailId ∧
      st'.nextResponseId = st.nextResponseId := by
  obtain ⟨hbe, hbr, hnde, hndr, href⟩ := hwf
  rcases hresp : getResponsesByEmailId st id with _ | ⟨r, rest⟩
  · rw [sendResponse, hresp] at h
    exact absurd (congrArg Prod.fst h) (by simp)
  · have heq := (sendResponse_eq_of_head t now hndr hresp).symm.trans h
    have hst' : st' = { st with responses := setResponse st.responses (sentUpdateOf r t now) } :=
      (congrArg Prod.snd heq).symm
    obtain ⟨l₁, l₂, hsplit, hset, hids⟩ :=
      setResponse_decomp st.responses r (sentUpdateOf r t now)
        (head_responses_mem hresp).1 hndr rfl
    exact ⟨r, rest, l₁, l₂, rfl, (head_responses_mem hresp).2, hsplit,
      by rw [hst', hset], hids, by rw [hst'], by rw [hst'], by rw [hst']⟩

theorem wf_after_sendResponse {st st' : Storage} {id : Nat} {t : String} {now : Nat}
    (hwf : WFStorage st) (h : sendResponse st id t now = (Except.ok (), st')) :
    WFStorage st' := by
  obtain ⟨r, rest, l₁, l₂, hresp, hrid, hsplit, hset, hids, hem, hne, hnr⟩ :=
    sendResponse_ok_decomp hwf h
  obtain ⟨hbe, hbr, hnde, hndr, href⟩ := hwf
  have hmap : st'.responses.map EmailResponse.id = st.responses.map EmailResponse.id := by
    rw [hset, hsplit, List.map_append, List.map_append, List.map_cons, List.map_cons]
    rfl
  refine ⟨?_, ?_, ?_, ?_, ?_⟩
  · rw [hem, hne]
    exact hbe
  · intro x hx
    rw [hnr]
    rw [hset] at hx
    rcases List.mem_append.mp hx with hx | hx
    · exact hbr x (hsplit ▸ List.mem_append.mpr (Or.inl hx))
    · rcases List.mem_cons.mp hx with rfl | hx
      · exact hbr r (hsplit ▸ List.mem_append.mpr (Or.inr (List.mem_cons_self r l₂)))
      · exact hbr x (hsplit ▸ List.mem_append.mpr (Or.inr (List.mem_cons_of_mem r hx)))
  · rw [hem]
    exact hnde
  · rw [hmap]
    exact hndr
  · intro x hx
    rw [hne]
    rw [hset] at hx
    rcases List.mem_append.mp hx with hx | hx
    · exact href x (hsplit ▸ List.mem_append.mpr (Or.inl hx))
    · rcases List.mem_cons.mp hx with rfl | hx
      · exact href r (hsplit ▸ List.mem_append.mpr (Or.inr (List.mem_cons_self r l₂)))
      · exact href x (hsplit ▸ List.mem_append.mpr (Or.inr (List.mem_cons_of_mem r hx)))

/-- After a successful `sendResponse`, the head of the email's response list
(the record the next call would update) carries `sentAt = now`. -/
theorem head_sent_after_sendResponse {st st' : Storage} {id : Nat} {t : String}
    {now : Nat} (hwf : WFStorage st)
    (h : sendResponse st id t now = (Except.ok (), st'))
    {r₂ : EmailResponse} {rest₂ : List EmailResponse}
    (hresp₂ : getResponsesByEmailId st' id = r₂ :: rest₂) :
    r₂.sentAt = some now := by
  obtain ⟨r, rest, l₁, l₂, hresp, hrid, hsplit, hset, hids, hem, hne, hnr⟩ :=
    sendResponse_ok_decomp hwf h
  have hrel : List.Forall₂ (fun x y => x = y ∨ (x = r ∧ y = sentUpdateOf r t now))
      st.responses st'.responses := by
    rw [hsplit, hset]
    refine List.rel_append ?_ (List.Forall₂.cons ?_ ?_)
    · exact List.forall₂_same.mpr (fun x _ => Or.inl rfl)
    · exact Or.inr ⟨rfl, rfl⟩
    · exact List.forall₂_same.mpr (fun x _ => Or.inl rfl)
  have hkey : ∀ x y, (x = y ∨ (x = r ∧ y = sentUpdateOf r t now)) →
      x.createdAt = y.createdAt := by
    intro x y hxy
    rcases hxy with rfl | ⟨rfl, rfl⟩
    · rfl
    · rfl
  have hp : ∀ x y, (x = y ∨ (x = r ∧ y = sentUpdateOf r t now)) →
      (x.emailId == id) = (y.emailId == id) := by
    intro x y hxy
    rcases hxy with rfl | ⟨rfl, rfl⟩
    · rfl
    · rfl
  have hrel₂ : List.Forall₂ (fun x y => x = y ∨ (x = r ∧ y = sentUpdateOf r t now))
      (getResponsesByEmailId st id) (getResponsesByEmailId st' id) :=
    forall₂_insortLe_created hkey (forall₂_filter_resp hp hrel)
  rw [hresp, hresp₂] at hrel₂
  have hhead := (List.forall₂_cons.mp hrel₂).1
  have hr₂mem : r₂ ∈ st'.responses := by
    have hm : r₂ ∈ getResponsesByEmailId st' id := by
      rw [hresp₂]
      exact List.mem_cons_self r₂ rest₂
    unfold getResponsesByEmailId at hm
    exact (List.mem_filter.mp ((mem_insortLe _ _ _).mp hm)).1
  have hr₂eq : r₂ = sentUpdateOf r t now := by
    rcases hhead with hcase | ⟨_, hcase⟩
    · rw [hset] at hr₂mem
      rcases List.mem_append.mp hr₂mem with hx | hx
      · exact absurd (hcase ▸ rfl) (hids r₂ (Or.inl hx))
      · rcases List.mem_cons.mp hx with hx | hx
        · exact hx
        · exact absurd (hcase ▸ rfl) (hids r₂ (Or.inr hx))
    · exact hcase
  rw [hr₂eq]
  rfl

/-! ### Substring characterization and filter/sort commutation -/

theorem prefOf_iff : ∀ (n h : List Char), prefOf n h = true ↔ ∃ t, h = n ++ t
  | [], h => by
      simp [prefOf]
  | a :: as, [] => by
      simp [prefOf]
  | a :: as, b :: bs => by
      rw [prefOf, Bool.and_eq_true, beq_iff_eq, prefOf_iff as bs]
      constructor
      · rintro ⟨rfl, t, rfl⟩
        exact ⟨t, rfl⟩
      · rintro ⟨t, ht⟩
        rw [List.cons_append] at ht
        injection ht with h1 h2
        exact ⟨h1.symm, t, h2⟩

theorem containsSub_iff : ∀ (n h : List Char), containsSub n h = true ↔ ∃ l r, h = l ++ n ++ r
  | n, [] => by
      rw [containsSub, List.isEmpty_iff]
      constructor
      · rintro rfl
        exact ⟨[], [], rfl⟩
      · rintro ⟨l, r, hl⟩
        rcases List.append_eq_nil.mp (List.append_eq_nil.mp hl.symm).1 with ⟨-, h2⟩
        exact h2
  | n, c :: t => by
      rw [containsSub, Bool.or_eq_true, prefOf_iff, containsSub_iff n t]
      constructor
      · rintro (⟨r, hr⟩ | ⟨l, r, hr⟩)
        · exact ⟨[], r, by simpa using hr⟩
        · exact ⟨c :: l, r, by simp [hr]⟩
      · rintro ⟨l, r, hr⟩
        rcases l with _ | ⟨x, l⟩
        · exact Or.inl ⟨r, by simpa using hr⟩
        · rw [List.cons_append, List.cons_append] at hr
          injection hr with h1 h2
          exact Or.inr ⟨l, r, h2⟩

theorem insertLe_of_all {α : Type} {le : α → α → Bool} {a : α} :
    ∀ {m : List α}, (∀ y ∈ m, le a y = true) → insertLe le a m = a :: m
  | [], _ => rfl
  | b :: bs, h => by
      rw [insertLe, if_pos (h b (List.mem_cons_self b bs))]

theorem filter_insertLe {α : Type} {le : α → α → Bool} {p : α → Bool}
    (htot : ∀ x y, le x y = true ∨ le y x = true)
    (htrans : ∀ x y z, le x y = true → le y z = true → le x z = true) (a : α) :
    ∀ l : List α, l.Pairwise (fun x y => le x y = true) →
      (insertLe le a l).filter p =
        if p a then insertLe le a (l.filter p) else l.filter p
  | [], _ => by
      simp [insertLe, List.filter_cons]
  | b :: bs, hsort => by
      rw [List.pairwise_cons] at hsort
      obtain ⟨hb, hbs⟩ := hsort
      rw [insertLe]
      by_cases hab : le a b = true
      · rw [if_pos hab, List.filter_cons, List.filter_cons]
        by_cases hpb : p b = true
        · rw [if_pos hpb]
          by_cases hpa : p a = true
          · rw [if_pos hpa, if_pos hpa, insertLe, if_pos hab]
          · rw [if_neg hpa, if_neg hpa]
        · rw [if_neg hpb]
          by_cases hpa : p a = true
          · rw [if_pos hpa, if_pos hpa, insertLe_of_all]
            intro y hy
            exact htrans a b y hab (hb y (List.mem_filter.mp hy).1)
          · rw [if_neg hpa, if_neg hpa]
      · rw [if_neg hab, List.filter_cons, List.filter_cons]
        by_cases hpb : p b = true
        · rw [if_pos hpb, if_pos hpb, filter_insertLe htot htrans a bs hbs]
          by_cases hpa : p a = true
          · rw [if_pos hpa, if_pos hpa, insertLe, if_neg hab]
          · rw [if_neg hpa, if_neg hpa]
        · rw [if_neg hpb, if_neg hpb, filter_insertLe htot htrans a bs hbs]

theorem filter_insortLe {α : Type} {le : α → α → Bool} {p : α → Bool}
    (htot : ∀ x y, le x y = true ∨ le y x = true)
    (htrans : ∀ x y z, le x y = true → le y z = true → le x z = true) :
    ∀ l : List α, (insortLe le l).filter p = insortLe le (l.filter p)
  | [] => rfl
  | a :: as => by
      rw [insortLe, filter_insertLe htot htrans a (insortLe le as)
        (insortLe_sorted htot htrans as), filter_insortLe htot htrans as,
        List.filter_cons]
      by_cases hpa : p a = true
      · rw [if_pos hpa, if_pos hpa, insortLe]
      · rw [if_neg hpa, if_neg hpa]

theorem recvDesc_total : ∀ x y : Email, recvDesc x y = true ∨ recvDesc y x = true := by
  intro x y
  unfold recvDesc
  rcases Nat.le_total y.receivedAt x.receivedAt with h | h
  · exact Or.inl (decide_eq_true h)
  · exact Or.inr (decide_eq_true h)

theorem recvDesc_trans : ∀ x y z : Email,
    recvDesc x y = true → recvDesc y z = true → recvDesc x z = true := by
  intro x y z hxy hyz
  unfold recvDesc at *
  exact decide_eq_true (Nat.le_trans (of_decide_eq_true hyz) (of_decide_eq_true hxy))

theorem createdDesc_total : ∀ x y : EmailResponse,
    createdDesc x y = true ∨ createdDesc y x = true := by
  intro x y
  unfold createdDesc
  rcases Nat.le_total y.createdAt x.createdAt with h | h
  · exact Or.inl (decide_eq_true h)
  · exact Or.inr (decide_eq_true h)

theorem createdDesc_trans : ∀ x y z : EmailResponse,
    createdDesc x y = true → createdDesc y z = true → createdDesc x z = true := by
  intro x y z hxy hyz
  unfold createdDesc at *
  exact decide_eq_true (Nat.le_trans (of_decide_eq_true hyz) (of_decide_eq_true hxy))

/-! ### Decomposing `processEmail` -/

theorem jsOrStr_ne_empty {v : Option String} {d : String} (hd : d ≠ "") :
    jsOrStr v d ≠ "" := by
  cases v with
  | none => exact hd
  | some s =>
      simp only [jsOrStr]
      by_cases hs : s = ""
      · rw [if_pos hs]
        exact hd
      · rw [if_neg hs]
        exact hs

theorem generateResponse_ne_empty (u : Upstream GenPayload)
    (emailBody subject sender sentiment priority : String) :
    (generateResponse u emailBody subject sender sentiment priority).response ≠ "" := by
  cases u with
  | ok p => exact jsOrStr_ne_empty (by decide)
  | err =>
      show ("Thank you for contacting us. We have received your email and will respond within 24 hours. If this is urgent, please call our support line." : String) ≠ ""
      decide
  | badJson =>
      show ("Thank you for contacting us. We have received your email and will respond within 24 hours. If this is urgent, please call our support line." : String) ≠ ""
      decide

/-- The email record `processEmail` creates for given inputs. -/
def createdEmailOf (w : AIWorld) (st : Storage) (sender subject body : String)
    (receivedAt now : Nat) : Email :=
  (createEmail st (emailInsertOf w sender subject body receivedAt) now).1

/-- The draft text `processEmail` generates in its urgent branch. -/
def draftTextOf (w : AIWorld) (sender subject body : String) : ResponseGeneration :=
  generateResponse w.genU body subject sender
    (analyzeSentiment w.sentimentU).sentiment (analyzePriority w.priorityU).priority

/-- The response record `processEmail` persists in its urgent branch. -/
def draftResponseOf (w : AIWorld) (st : Storage) (sender subject body : String)
    (receivedAt now : Nat) : EmailResponse :=
  { id := st.nextResponseId
    emailId := (createdEmailOf w st sender subject body receivedAt now).id
    generatedResponse := (draftTextOf w sender subject body).response
    isEdited := false
    finalResponse := none
    sentAt := none
    confidence := jsOrIntNull (some (jsRound ((draftTextOf w sender subject body).confidence * 100)))
    createdAt := now }

theorem processEmail_urgent (w : AIWorld) (st : Storage) (sender subject body : String)
    (receivedAt now : Nat)
    (hurg : (analyzePriority w.priorityU).priority = "urgent") :
    processEmail w st sender subject body receivedAt now =
      ({ id := (createdEmailOf w st sender subject body receivedAt now).id
         sender := sender
         subject := subject
         body := body
         receivedAt := receivedAt
         priority := (analyzePriority w.priorityU).priority
         sentiment := (analyzeSentiment w.sentimentU).sentiment
         category := jsOrStr (createdEmailOf w st sender subject body receivedAt now).category
           "General Inquiry"
         extractedInfo := (createdEmailOf w st sender subject body receivedAt now).extractedInfo
         hasResponse := !((draftTextOf w sender subject body).response = "")
         generatedResponse := some (draftTextOf w sender subject body).response },
       { emails := setEmail st.emails (createdEmailOf w st sender subject body receivedAt now)
         responses := setResponse st.responses
           (draftResponseOf w st sender subject body receivedAt now)
         nextEmailId := st.nextEmailId + 1
         nextResponseId := st.nextResponseId + 1 }) := by
  unfold processEmail createdEmailOf draftResponseOf draftTextOf createEmail createEmailResponse
  dsimp only
  rw [if_pos hurg]
  rfl

theorem processEmail_normal (w : AIWorld) (st : Storage) (sender subject body : String)
    (receivedAt now : Nat)
    (hnorm : (analyzePriority w.priorityU).priority ≠ "urgent") :
    processEmail w st sender subject body receivedAt now =
      ({ id := (createdEmailOf w st sender subject body receivedAt now).id
         sender := sender
         subject := subject
         body := body
         receivedAt := receivedAt
         priority := (analyzePriority w.priorityU).priority
         sentiment := (analyzeSentiment w.sentimentU).sentiment
         category := jsOrStr (createdEmailOf w st sender subject body receivedAt now).category
           "General Inquiry"
         extractedInfo := (createdEmailOf w st sender subject body receivedAt now).extractedInfo
         hasResponse := false
         generatedResponse := none },
       { emails := setEmail st.emails (createdEmailOf w st sender subject body receivedAt now)
         responses := st.responses
         nextEmailId := st.nextEmailId + 1
         nextResponseId := st.nextResponseId }) := by
  unfold processEmail createdEmailOf createEmail
  dsimp only
  rw [if_neg hnorm]
  rfl

theorem createdEmailOf_id (w : AIWorld) (st : Storage) (sender subject body : String)
    (receivedAt now : Nat) :
    (createdEmailOf w st sender subject body receivedAt now).id = st.nextEmailId := rfl

theorem setEmail_createdEmailOf (w : AIWorld) (st : Storage) (sender subject body : String)
    (receivedAt now : Nat) (hwf : WFStorage st) :
    setEmail st.emails (createdEmailOf w st sender subject body receivedAt now) =
      st.emails ++ [createdEmailOf w st sender subject body receivedAt now] := by
  apply setEmail_fresh
  intro y hy
  rw [createdEmailOf_id]
  exact Nat.ne_of_lt (hwf.1 y hy)

/-! ### Upstream behaviour classes and concrete states -/

/-- The upstream call failed by throwing: network/provider error or
non-JSON-parseable message content (the code's `catch` branch runs). -/
def failingUpstream {α : Type} : Upstream α → Prop
  | Upstream.ok _ => False
  | _ => True

/-- The priority payload is absent, falsy, or one of the enumerated values
(what a non-adversarial provider produces). -/
def tamePriorityUpstream : Upstream PriorityPayload → Prop
  | Upstream.ok p => p.priority = none ∨ p.priority = some "" ∨
      p.priority = some "urgent" ∨ p.priority = some "normal"
  | _ => True

/-- The sentiment payload is absent, falsy, or one of the enumerated values. -/
def tameSentimentUpstream : Upstream SentimentPayload → Prop
  | Upstream.ok p => p.sentiment = none ∨ p.sentiment = some "" ∨
      p.sentiment = some "positive" ∨ p.sentiment = some "negative" ∨
      p.sentiment = some "neutral"
  | _ => True

/-- All three analysis calls of `processEmail` fail (throw upstream). -/
def allAnalysesFail (w : AIWorld) : Prop :=
  failingUpstream w.sentimentU ∧ failingUpstream w.priorityU ∧ failingUpstream w.extractU

/-- The storage state right after construction with no sample data. -/
def emptyStorage : Storage :=
  { emails := [], responses := [], nextEmailId := 1, nextResponseId := 1 }

theorem clamp01_of_mem {q : ℚ} (h0 : 0 ≤ q) (h1 : q ≤ 1) : clamp01 q = q := by
  unfold clamp01
  rw [min_eq_right h1, max_eq_right h0]

theorem clamp01_bounds (q : ℚ) : 0 ≤ clamp01 q ∧ clamp01 q ≤ 1 :=
  ⟨le_max_left 0 _, max_le (by norm_num) (min_le_left 1 q)⟩

/-- C4 (amended): whenever an upstream call throws (network error, provider
error, or non-JSON content), each of the four AI-client operations returns
exactly its documented catch-branch default and raises nothing; payloads that
parse but carry invalid field values are NOT replaced by the defaults (see the
counterexample), which is the sole amendment to the claim. -/
theorem ai_client_failure_defaults_amended
    (u₁ : Upstream SentimentPayload) (u₂ : Upstream PriorityPayload)
    (u₃ : Upstream ExtractPayload) (u₄ : Upstream GenPayload)
    (emailBody subject sender sentiment priority : String)
    (h₁ : failingUpstream u₁) (h₂ : failingUpstream u₂)
    (h₃ : failingUpstream u₃) (h₄ : failingUpstream u₄) :
    analyzeSentiment u₁ =
      { sentiment := "neutral", confidence := 1/2, reasoning := "Error during analysis" } ∧
    analyzePriority u₂ = { priority := "normal", confidence := 1/2, keywords := [] } ∧
    extractInformation u₃ =
      { phoneNumbers := [], alternateEmails := [], category := "General Inquiry"
        customerRequirements := [], sentimentIndicators := [] } ∧
    generateResponse u₄ emailBody subject sender sentiment priority =
      { response := "Thank you for contacting us. We have received your email and will respond within 24 hours. If this is urgent, please call our support line."
        tone := "professional", confidence := 1/2 } := by
  refine ⟨?_, ?_, ?_, ?_⟩
  · cases u₁ with
    | ok p => exact h₁.elim
    | err => rfl
    | badJson => rfl
  · cases u₂ with
    | ok p => exact h₂.elim
    | err => rfl
    | badJson => rfl
  · cases u₃ with
    | ok p => exact h₃.elim
    | err => rfl
    | badJson => rfl
  · cases u₄ with
    | ok p => exact h₄.elim
    | err => rfl
    | badJson => rfl

/-- C4 witness: the amended theorem applied to concrete throwing upstreams. -/
theorem ai_client_failure_defaults_amended_witness :
    failingUpstream (Upstream.err : Upstream SentimentPayload) ∧
    analyzeSentiment (Upstream.err : Upstream SentimentPayload) =
      { sentiment := "neutral", confidence := 1/2, reasoning := "Error during analysis" } :=
  ⟨trivial,
    (ai_client_failure_defaults_amended Upstream.err Upstream.err Upstream.err Upstream.err
      "b" "s" "x" "neutral" "normal" trivial trivial trivial trivial).1⟩

/-- C4 counterexample: a JSON-parseable upstream reply whose `sentiment` field
holds the invalid truthy value `"angry"` is a malformed provider response, yet
`analyzeSentiment` passes the value through verbatim instead of returning its
documented default shape. -/
theorem analyzeSentiment_passes_through_nonenum_value :
    (analyzeSentiment (Upstream.ok { sentiment := some "angry" })).sentiment = "angry" ∧
    (analyzeSentiment (Upstream.ok { sentiment := some "angry" })).sentiment ≠ "positive" ∧
    (analyzeSentiment (Upstream.ok { sentiment := some "angry" })).sentiment ≠ "negative" ∧
    (analyzeSentiment (Upstream.ok { sentiment := some "angry" })).sentiment ≠ "neutral" := by
  refine ⟨rfl, ?_, ?_, ?_⟩ <;> decide

/-- C9: `generateResponseForEmail` on an unknown email id is caught by the
catch branch: it returns the fixed fallback draft text, does not raise, and
persists nothing (the state is returned unchanged). -/
theorem generateResponseForEmail_fallback (w : Upstream GenPayload) (st : Storage)
    (emailId now : Nat) (h : getEmailById st emailId = none) :
    generateResponseForEmail w st emailId now = (fallbackResponseText, st) := by
  unfold generateResponseForEmail
  rw [h]

/-- C9 witness: concrete missing id on the empty storage. -/
theorem generateResponseForEmail_fallback_witness :
    getEmailById emptyStorage 1 = none ∧
    generateResponseForEmail Upstream.err emptyStorage 1 0 = (fallbackResponseText, emptyStorage) :=
  ⟨rfl, generateResponseForEmail_fallback Upstream.err emptyStorage 1 0 rfl⟩

/-- C10: every confidence surfaced by the AI client is clamped into `[0, 1]`;
an absent or exactly-zero upstream confidence (both falsy) is replaced by the
defaults `0.5` (`analyzeSentiment`/`analyzePriority`) resp. `0.8`
(`generateResponse`), so a reported zero is never surfaced. -/
theorem confidence_normalization_spec :
    (∀ u : Upstream SentimentPayload,
       0 ≤ (analyzeSentiment u).confidence ∧ (analyzeSentiment u).confidence ≤ 1) ∧
    (∀ u : Upstream PriorityPayload,
       0 ≤ (analyzePriority u).confidence ∧ (analyzePriority u).confidence ≤ 1) ∧
    (∀ (u : Upstream GenPayload) (b s snd sent pri : String),
       0 ≤ (generateResponse u b s snd sent pri).confidence ∧
         (generateResponse u b s snd sent pri).confidence ≤ 1) ∧
    (∀ p : SentimentPayload, (p.confidence = none ∨ p.confidence = some 0) →
       (analyzeSentiment (Upstream.ok p)).confidence = 1/2) ∧
    (∀ p : PriorityPayload, (p.confidence = none ∨ p.confidence = some 0) →
       (analyzePriority (Upstream.ok p)).confidence = 1/2) ∧
    (∀ (p : GenPayload) (b s snd sent pri : String),
       (p.confidence = none ∨ p.confidence = some 0) →
       (generateResponse (Upstream.ok p) b s snd sent pri).confidence = 4/5) ∧
    (∀ p : SentimentPayload, (p.confidence = none ∨ p.confidence = some 0) →
       (analyzeSentiment (Upstream.ok p)).confidence ≠ 0) ∧
    (∀ (p : GenPayload) (b s snd sent pri : String),
       (p.confidence = none ∨ p.confidence = some 0) →
       (generateResponse (Upstream.ok p) b s snd sent pri).confidence ≠ 0) := by
  have hsent : ∀ p : SentimentPayload, (p.confidence = none ∨ p.confidence = some 0) →
      (analyzeSentiment (Upstream.ok p)).confidence = 1/2 := by
    intro p h
    show clamp01 (jsOrNum p.confidence (1/2)) = 1/2
    rcases h with h | h <;> rw [h]
    · exact clamp01_of_mem (by norm_num [jsOrNum]) (by norm_num [jsOrNum])
    · show clamp01 (if (0:ℚ) = 0 then 1/2 else 0) = 1/2
      rw [if_pos rfl]
      exact clamp01_of_mem (by norm_num) (by norm_num)
  have hgen : ∀ (p : GenPayload) (b s snd sent pri : String),
      (p.confidence = none ∨ p.confidence = some 0) →
      (generateResponse (Upstream.ok p) b s snd sent pri).confidence = 4/5 := by
    intro p b s snd sent pri h
    show clamp01 (jsOrNum p.confidence (4/5)) = 4/5
    rcases h with h | h <;> rw [h]
    · exact clamp01_of_mem (by norm_num [jsOrNum]) (by norm_num [jsOrNum])
    · show clamp01 (if (0:ℚ) = 0 then 4/5 else 0) = 4/5
      rw [if_pos rfl]
      exact clamp01_of_mem (by norm_num) (by norm_num)
  refine ⟨?_, ?_, ?_, hsent, ?_, hgen, ?_, ?_⟩
  · intro u
    cases u with
    | ok p => exact clamp01_bounds _
    | err => exact ⟨by norm_num [analyzeSentiment, analyzePriority, generateResponse], by norm_num [analyzeSentiment, analyzePriority, generateResponse]⟩
    | badJson => exact ⟨by norm_num [analyzeSentiment, analyzePriority, generateResponse], by norm_num [analyzeSentiment, analyzePriority, generateResponse]⟩
  · intro u
    cases u with
    | ok p => exact clamp01_bounds _
    | err => exact ⟨by norm_num [analyzeSentiment, analyzePriority, generateResponse], by norm_num [analyzeSentiment, analyzePriority, generateResponse]⟩
    | badJson => exact ⟨by norm_num [analyzeSentiment, analyzePriority, generateResponse], by norm_num [analyzeSentiment, analyzePriority, generateResponse]⟩
  · intro u b s snd sent pri
    cases u with
    | ok p => exact clamp01_bounds _
    | err => exact ⟨by norm_num [analyzeSentiment, analyzePriority, generateResponse], by norm_num [analyzeSentiment, analyzePriority, generateResponse]⟩
    | badJson => exact ⟨by norm_num [analyzeSentiment, analyzePriority, generateResponse], by norm_num [analyzeSentiment, analyzePriority, generateResponse]⟩
  · intro p h
    show clamp01 (jsOrNum p.confidence (1/2)) = 1/2
    rcases h with h | h <;> rw [h]
    · exact clamp01_of_mem (by norm_num [jsOrNum]) (by norm_num [jsOrNum])
    · show clamp01 (if (0:ℚ) = 0 then 1/2 else 0) = 1/2
      rw [if_pos rfl]
      exact clamp01_of_mem (by norm_num) (by norm_num)
  · intro p h
    rw [hsent p h]
    norm_num
  · intro p b s snd sent pri h
    rw [hgen p b s snd sent pri h]
    norm_num

/-- C10 witness: empty payloads (absent confidence) at concrete inputs. -/
theorem confidence_normalization_spec_witness :
    (({} : SentimentPayload).confidence = none ∨
      ({} : SentimentPayload).confidence = some 0) ∧
    (analyzeSentiment (Upstream.ok ({} : SentimentPayload))).confidence = 1/2 ∧
    (generateResponse (Upstream.ok ({} : GenPayload)) "b" "s" "x" "neutral" "normal").confidence = 4/5 :=
  ⟨Or.inl rfl,
    confidence_normalization_spec.2.2.2.1 {} (Or.inl rfl),
    confidence_normalization_spec.2.2.2.2.2.1 {} "b" "s" "x" "neutral" "normal" (Or.inl rfl)⟩

/-! ### C2: the processed-email invariant -/

theorem beq_id_false_of_lt {y : Email} {n : Nat} (h : y.id < n) : (y.id == n) = false := by
  simp only [beq_eq_false_iff_ne]
  exact Nat.ne_of_lt h

/-- C2 (amended): every email record persisted by `processEmail` has
`isProcessed = true`, and its `priority`/`sentiment` are exactly the analysis
outputs; when the provider fails or returns falsy or enumerated field values
the enums hold (in particular, all-fail gives `"normal"`/`"neutral"`), but a
truthy non-enumerated provider value is persisted verbatim (see the
counterexample), which is the sole amendment. -/
theorem processEmail_enum_invariant_amended
    (w : AIWorld) (st : Storage) (sender subject body : String) (receivedAt now : Nat)
    (hwf : WFStorage st) :
    ∃ e : Email,
      getEmailById (processEmail w st sender subject body receivedAt now).2
        (processEmail w st sender subject body receivedAt now).1.id = some e ∧
      e.isProcessed = true ∧
      e.priority = (analyzePriority w.priorityU).priority ∧
      e.sentiment = (analyzeSentiment w.sentimentU).sentiment ∧
      (tamePriorityUpstream w.priorityU → (e.priority = "urgent" ∨ e.priority = "normal")) ∧
      (tameSentimentUpstream w.sentimentU →
        (e.sentiment = "positive" ∨ e.sentiment = "negative" ∨ e.sentiment = "neutral")) ∧
      (allAnalysesFail w → e.priority = "normal" ∧ e.sentiment = "neutral") := by
  refine ⟨createdEmailOf w st sender subject body receivedAt now, ?_, rfl, rfl, rfl, ?_, ?_, ?_⟩
  · have hemails : (processEmail w st sender subject body receivedAt now).2.emails =
        setEmail st.emails (createdEmailOf w st sender subject body receivedAt now) := by
      by_cases hurg : (analyzePriority w.priorityU).priority = "urgent"
      · rw [processEmail_urgent w st sender subject body receivedAt now hurg]
      · rw [processEmail_normal w st sender subject body receivedAt now hurg]
    have hid : (processEmail w st sender subject body receivedAt now).1.id =
        (createdEmailOf w st sender subject body receivedAt now).id := by
      by_cases hurg : (analyzePriority w.priorityU).priority = "urgent"
      · rw [processEmail_urgent w st sender subject body receivedAt now hurg]
      · rw [processEmail_normal w st sender subject body receivedAt now hurg]
    unfold getEmailById
    rw [hemails, hid, setEmail_createdEmailOf w st sender subject body receivedAt now hwf,
      find?_append_none _ st.emails _ ?_, List.find?_cons_of_pos _ (by simp)]
    · intro y hy
      rw [createdEmailOf_id]
      exact beq_id_false_of_lt (hwf.1 y hy)
  · intro h
    show (analyzePriority w.priorityU).priority = "urgent" ∨
      (analyzePriority w.priorityU).priority = "normal"
    rcases hu : w.priorityU with _ | _ | p
    · exact Or.inr rfl
    · exact Or.inr rfl
    · rw [hu] at h
      have h' : p.priority = none ∨ p.priority = some "" ∨
          p.priority = some "urgent" ∨ p.priority = some "normal" := h
      show jsOrStr p.priority "normal" = "urgent" ∨ jsOrStr p.priority "normal" = "normal"
      rcases h' with h' | h' | h' | h' <;> rw [h']
      · exact Or.inr rfl
      · exact Or.inr rfl
      · exact Or.inl rfl
      · exact Or.inr rfl
  · intro h
    show (analyzeSentiment w.sentimentU).sentiment = "positive" ∨
      (analyzeSentiment w.sentimentU).sentiment = "negative" ∨
      (analyzeSentiment w.sentimentU).sentiment = "neutral"
    rcases hu : w.sentimentU with _ | _ | p
    · exact Or.inr (Or.inr rfl)
    · exact Or.inr (Or.inr rfl)
    · rw [hu] at h
      have h' : p.sentiment = none ∨ p.sentiment = some "" ∨
          p.sentiment = some "positive" ∨ p.sentiment = some "negative" ∨
          p.sentiment = some "neutral" := h
      show jsOrStr p.sentiment "neutral" = "positive" ∨
        jsOrStr p.sentiment "neutral" = "negative" ∨ jsOrStr p.sentiment "neutral" = "neutral"
      rcases h' with h' | h' | h' | h' | h' <;> rw [h']
      · exact Or.inr (Or.inr rfl)
      · exact Or.inr (Or.inr rfl)
      · exact Or.inl rfl
      · exact Or.inr (Or.inl rfl)
      · exact Or.inr (Or.inr rfl)
  · rintro ⟨hf1, hf2, hf3⟩
    constructor
    · show (analyzePriority w.priorityU).priority = "normal"
      rcases hu : w.priorityU with _ | _ | p
      · rfl
      · rfl
      · rw [hu] at hf2
        exact hf2.elim
    · show (analyzeSentiment w.sentimentU).sentiment = "neutral"
      rcases hu : w.sentimentU with _ | _ | p
      · rfl
      · rfl
      · rw [hu] at hf1
        exact hf1.elim

/-- Provider behaviour returning the invalid truthy priority `"high"`. -/
def nonEnumWorld : AIWorld :=
  { sentimentU := Upstream.err
    priorityU := Upstream.ok { priority := some "high" }
    extractU := Upstream.err
    genU := Upstream.err }

/-- C2 counterexample: under a provider behaviour returning the truthy
non-enumerated priority `"high"`, `processEmail` persists an email record with
`isProcessed = true` whose `priority` is neither `"urgent"` nor `"normal"`. -/
theorem processEmail_passes_through_nonenum_priority :
    (processEmail nonEnumWorld emptyStorage "a@b.com" "Subject" "Body" 0 0).2.emails.map
      Email.priority = ["high"] ∧
    (processEmail nonEnumWorld emptyStorage "a@b.com" "Subject" "Body" 0 0).2.emails.map
      Email.isProcessed = [true] ∧
    ("high" : String) ≠ "urgent" ∧ ("high" : String) ≠ "normal" := by
  refine ⟨rfl, rfl, by decide, by decide⟩

/-- The provider behaviour in which every call throws. -/
def allFailWorld : AIWorld :=
  { sentimentU := Upstream.err
    priorityU := Upstream.err
    extractU := Upstream.err
    genU := Upstream.err }

/-- C2 witness: the amended theorem applied to the all-failing provider on the
empty storage. -/
theorem processEmail_enum_invariant_amended_witness :
    WFStorage emptyStorage ∧
    ∃ e : Email,
      getEmailById (processEmail allFailWorld emptyStorage "a@b.com" "Subject" "Body" 0 0).2
        (processEmail allFailWorld emptyStorage "a@b.com" "Subject" "Body" 0 0).1.id = some e ∧
      e.isProcessed = true ∧
      e.priority = (analyzePriority allFailWorld.priorityU).priority ∧
      e.sentiment = (analyzeSentiment allFailWorld.sentimentU).sentiment ∧
      (tamePriorityUpstream allFailWorld.priorityU → (e.priority = "urgent" ∨ e.priority = "normal")) ∧
      (tameSentimentUpstream allFailWorld.sentimentU →
        (e.sentiment = "positive" ∨ e.sentiment = "negative" ∨ e.sentiment = "neutral")) ∧
      (allAnalysesFail allFailWorld → e.priority = "normal" ∧ e.sentiment = "neutral") :=
  ⟨by decide,
    processEmail_enum_invariant_amended allFailWorld emptyStorage "a@b.com" "Subject" "Body" 0 0
      (by decide)⟩

/-! ### C3: the urgent auto-draft rule -/

theorem beq_emailId_false_of_lt {r : EmailResponse} {n : Nat} (h : r.emailId < n) :
    (r.emailId == n) = false := by
  simp only [beq_eq_false_iff_ne]
  exact Nat.ne_of_lt h

/-- C3 (amended): immediately after `processEmail`, `hasResponse = true` iff
the analysed priority is `"urgent"`; in the urgent case exactly one
`EmailResponse` is persisted for the new email, with `isEdited = false`,
`finalResponse = null`, `sentAt = null`, and `confidence` equal to
`round(rawConfidence × 100)` except that a rounded value of `0` is stored as
`null` (falsy coercion in `createEmailResponse`); non-urgent emails get no
draft. -/
theorem processEmail_autodraft_amended
    (w : AIWorld) (st : Storage) (sender subject body : String) (receivedAt now : Nat)
    (hwf : WFStorage st) :
    ((processEmail w st sender subject body receivedAt now).1.hasResponse = true ↔
      (analyzePriority w.priorityU).priority = "urgent") ∧
    ((analyzePriority w.priorityU).priority = "urgent" →
      (processEmail w st sender subject body receivedAt now).2.responses =
        st.responses ++ [draftResponseOf w st sender subject body receivedAt now] ∧
      (draftResponseOf w st sender subject body receivedAt now).emailId =
        (processEmail w st sender subject body receivedAt now).1.id ∧
      (draftResponseOf w st sender subject body receivedAt now).generatedResponse =
        (draftTextOf w sender subject body).response ∧
      (draftResponseOf w st sender subject body receivedAt now).isEdited = false ∧
      (draftResponseOf w st sender subject body receivedAt now).finalResponse = none ∧
      (draftResponseOf w st sender subject body receivedAt now).sentAt = none ∧
      (draftResponseOf w st sender subject body receivedAt now).confidence =
        (if jsRound ((draftTextOf w sender subject body).confidence * 100) = 0 then none
         else some (jsRound ((draftTextOf w sender subject body).confidence * 100))) ∧
      ((processEmail w st sender subject body receivedAt now).2.responses.filter
        (fun x => x.emailId ==
          (processEmail w st sender subject body receivedAt now).1.id)).length = 1) ∧
    ((analyzePriority w.priorityU).priority ≠ "urgent" →
      (processEmail w st sender subject body receivedAt now).2.responses = st.responses) := by
  refine ⟨?_, ?_, ?_⟩
  · by_cases hurg : (analyzePriority w.priorityU).priority = "urgent"
    · rw [processEmail_urgent w st sender subject body receivedAt now hurg]
      constructor
      · intro _
        exact hurg
      · intro _
        show (!decide ((generateResponse w.genU body subject sender
          (analyzeSentiment w.sentimentU).sentiment
          (analyzePriority w.priorityU).priority).response = "")) = true
        rw [decide_eq_false (generateResponse_ne_empty w.genU body subject sender
          (analyzeSentiment w.sentimentU).sentiment (analyzePriority w.priorityU).priority)]
        rfl
    · rw [processEmail_normal w st sender subject body receivedAt now hurg]
      exact iff_of_false (by simp) hurg
  · intro hurg
    have happ : setResponse st.responses
        (draftResponseOf w st sender subject body receivedAt now) =
        st.responses ++ [draftResponseOf w st sender subject body receivedAt now] := by
      apply setResponse_fresh
      intro y hy
      exact Nat.ne_of_lt (hwf.2.1 y hy)
    rw [processEmail_urgent w st sender subject body receivedAt now hurg]
    have hde : (draftResponseOf w st sender subject body receivedAt now).emailId =
        st.nextEmailId := by
      unfold draftResponseOf createdEmailOf createEmail
      rfl
    refine ⟨happ, hde, rfl, rfl, rfl, rfl, rfl, ?_⟩
    show ((setResponse st.responses
      (draftResponseOf w st sender subject body receivedAt now)).filter
        (fun x => x.emailId == st.nextEmailId)).length = 1
    rw [happ, List.filter_append, List.filter_eq_nil_iff.mpr ?_, List.nil_append]
    · show (List.filter (fun x => x.emailId == st.nextEmailId)
        [draftResponseOf w st sender subject body receivedAt now]).length = 1
      rw [List.filter_cons, if_pos (by simp only [beq_iff_eq]; exact hde)]
      rfl
    · intro r hr
      simp only [Bool.not_eq_true]
      exact beq_emailId_false_of_lt (hwf.2.2.2.2 r hr)
  · intro hnorm
    rw [processEmail_normal w st sender subject body receivedAt now hnorm]

/-- Provider behaviour: urgent priority, all other calls throwing. -/
def urgentWorld : AIWorld :=
  { sentimentU := Upstream.err
    priorityU := Upstream.ok { priority := some "urgent" }
    extractU := Upstream.err
    genU := Upstream.err }

/-- C3 witness: the amended auto-draft theorem applied to a concrete urgent
processing on the empty storage. -/
theorem processEmail_autodraft_amended_witness :
    WFStorage emptyStorage ∧
    (((processEmail urgentWorld emptyStorage "a@b.com" "Subject" "Body" 0 0).1.hasResponse = true ↔
      (analyzePriority urgentWorld.priorityU).priority = "urgent") ∧
    ((analyzePriority urgentWorld.priorityU).priority = "urgent" →
      (processEmail urgentWorld emptyStorage "a@b.com" "Subject" "Body" 0 0).2.responses =
        emptyStorage.responses ++ [draftResponseOf urgentWorld emptyStorage "a@b.com" "Subject" "Body" 0 0] ∧
      (draftResponseOf urgentWorld emptyStorage "a@b.com" "Subject" "Body" 0 0).emailId =
        (processEmail urgentWorld emptyStorage "a@b.com" "Subject" "Body" 0 0).1.id ∧
      (draftResponseOf urgentWorld emptyStorage "a@b.com" "Subject" "Body" 0 0).generatedResponse =
        (draftTextOf urgentWorld "a@b.com" "Subject" "Body").response ∧
      (draftResponseOf urgentWorld emptyStorage "a@b.com" "Subject" "Body" 0 0).isEdited = false ∧
      (draftResponseOf urgentWorld emptyStorage "a@b.com" "Subject" "Body" 0 0).finalResponse = none ∧
      (draftResponseOf urgentWorld emptyStorage "a@b.com" "Subject" "Body" 0 0).sentAt = none ∧
      (draftResponseOf urgentWorld emptyStorage "a@b.com" "Subject" "Body" 0 0).confidence =
        (if jsRound ((draftTextOf urgentWorld "a@b.com" "Subject" "Body").confidence * 100) = 0 then none
         else some (jsRound ((draftTextOf urgentWorld "a@b.com" "Subject" "Body").confidence * 100))) ∧
      ((processEmail urgentWorld emptyStorage "a@b.com" "Subject" "Body" 0 0).2.responses.filter
        (fun x => x.emailId ==
          (processEmail urgentWorld emptyStorage "a@b.com" "Subject" "Body" 0 0).1.id)).length = 1) ∧
    ((analyzePriority urgentWorld.priorityU).priority ≠ "urgent" →
      (processEmail urgentWorld emptyStorage "a@b.com" "Subject" "Body" 0 0).2.responses =
        emptyStorage.responses)) :=
  ⟨by decide,
    processEmail_autodraft_amended urgentWorld emptyStorage "a@b.com" "Subject" "Body" 0 0
      (by decide)⟩

/-- Provider behaviour: urgent email whose generated draft reports the truthy
confidence `-1`, which the client clamps to `0`. -/
def zeroConfWorld : AIWorld :=
  { sentimentU := Upstream.err
    priorityU := Upstream.ok { priority := some "urgent" }
    extractU := Upstream.err
    genU := Upstream.ok { response := some "Hi", confidence := some (-1) } }

/-- C3 counterexample: with a clamped raw confidence of `0`,
`round(rawConfidence × 100) = 0`, but the persisted response's `confidence` is
`null` (the falsy `0` collapses under `confidence || null` in
`createEmailResponse`), not the integer `0` the claim requires. -/
theorem autodraft_zero_confidence_stored_null :
    jsRound ((draftTextOf zeroConfWorld "a@b.com" "Subject" "Body").confidence * 100) = 0 ∧
    (processEmail zeroConfWorld emptyStorage "a@b.com" "Subject" "Body" 0 0).2.responses.map
      EmailResponse.confidence = [none] ∧
    (none : Option Int) ≠ some 0 := by
  have h0 : (draftTextOf zeroConfWorld "a@b.com" "Subject" "Body").confidence = 0 := by
    show clamp01 (jsOrNum (some (-1)) (4/5)) = 0
    rw [show jsOrNum (some (-1)) (4/5) = -1 by norm_num [jsOrNum]]
    unfold clamp01
    rw [min_eq_right (by norm_num), max_eq_left (by norm_num)]
  have hr : jsRound ((draftTextOf zeroConfWorld "a@b.com" "Subject" "Body").confidence * 100) = 0 := by
    rw [h0]
    norm_num [jsRound, Rat.floor_def]
  refine ⟨hr, ?_, by decide⟩
  rw [processEmail_urgent zeroConfWorld emptyStorage "a@b.com" "Subject" "Body" 0 0 rfl]
  show [(draftResponseOf zeroConfWorld emptyStorage "a@b.com" "Subject" "Body" 0 0).confidence] = [none]
  show [jsOrIntNull (some (jsRound ((draftTextOf zeroConfWorld "a@b.com" "Subject" "Body").confidence * 100)))] = [none]
  rw [hr]
  rfl

/-! ### C7: sentiment distribution -/

/-- Three emails, one of each sentiment. -/
def threeMixStorage : Storage :=
  { emails :=
      [ { id := 1, sender := "a@x.com", subject := "S1", body := "B1", receivedAt := 3
          priority := "normal", sentiment := "positive", category := none
          extractedInfo := none, isProcessed := true, createdAt := 3 },
        { id := 2, sender := "b@x.com", subject := "S2", body := "B2", receivedAt := 2
          priority := "normal", sentiment := "negative", category := none
          extractedInfo := none, isProcessed := true, createdAt := 2 },
        { id := 3, sender := "c@x.com", subject := "S3", body := "B3", receivedAt := 1
          priority := "urgent", sentiment := "neutral", category := none
          extractedInfo := none, isProcessed := true, createdAt := 1 } ]
    responses := []
    nextEmailId := 4
    nextResponseId := 1 }

/-- C7: `getSentimentDistribution` is all-zero on an empty store; otherwise it
returns each sentiment's share of the total email count as an independently
rounded integer percentage with no renormalization; over three emails with one
of each sentiment that gives `{33, 33, 33}`, which sums to 99, not 100. -/
theorem sentimentDistribution_spec :
    (∀ st : Storage, st.emails = [] →
      getSentimentDistribution st = { positive := 0, negative := 0, neutral := 0 }) ∧
    (∀ st : Storage, st.emails ≠ [] →
      getSentimentDistribution st =
        { positive := jsRound ((((st.emails.filter
              (fun e => e.sentiment == "positive")).length : ℚ) / (st.emails.length : ℚ)) * 100)
          negative := jsRound ((((st.emails.filter
              (fun e => e.sentiment == "negative")).length : ℚ) / (st.emails.length : ℚ)) * 100)
          neutral := jsRound ((((st.emails.filter
              (fun e => e.sentiment == "neutral")).length : ℚ) / (st.emails.length : ℚ)) * 100) }) ∧
    getSentimentDistribution threeMixStorage = { positive := 33, negative := 33, neutral := 33 } ∧
    (33 + 33 + 33 : Int) ≠ 100 := by
  have hformula : ∀ st : Storage, st.emails ≠ [] →
      getSentimentDistribution st =
        { positive := jsRound ((((st.emails.filter
              (fun e => e.sentiment == "positive")).length : ℚ) / (st.emails.length : ℚ)) * 100)
          negative := jsRound ((((st.emails.filter
              (fun e => e.sentiment == "negative")).length : ℚ) / (st.emails.length : ℚ)) * 100)
          neutral := jsRound ((((st.emails.filter
              (fun e => e.sentiment == "neutral")).length : ℚ) / (st.emails.length : ℚ)) * 100) } := by
    intro st h
    unfold getSentimentDistribution
    rw [if_neg (fun hc => h (List.length_eq_zero.mp hc))]
  refine ⟨?_, hformula, ?_, by decide⟩
  · intro st h
    unfold getSentimentDistribution
    rw [h]
    rfl
  · rw [hformula threeMixStorage (by decide)]
    have h1 : (threeMixStorage.emails.filter (fun e => e.sentiment == "positive")).length = 1 := rfl
    have h2 : (threeMixStorage.emails.filter (fun e => e.sentiment == "negative")).length = 1 := rfl
    have h3 : (threeMixStorage.emails.filter (fun e => e.sentiment == "neutral")).length = 1 := rfl
    have hlen : threeMixStorage.emails.length = 3 := rfl
    rw [h1, h2, h3, hlen]
    have : jsRound (((1 : Nat) : ℚ) / ((3 : Nat) : ℚ) * 100) = 33 := by
      norm_num [jsRound, Rat.floor_def]
    rw [this]

/-- C7 witness: the zero case on the empty storage and the general formula at
the concrete three-email state. -/
theorem sentimentDistribution_spec_witness :
    (emptyStorage.emails = [] ∧
      getSentimentDistribution emptyStorage = { positive := 0, negative := 0, neutral := 0 }) ∧
    (threeMixStorage.emails ≠ [] ∧
      getSentimentDistribution threeMixStorage =
        { positive := jsRound ((((threeMixStorage.emails.filter
              (fun e => e.sentiment == "positive")).length : ℚ) / (threeMixStorage.emails.length : ℚ)) * 100)
          negative := jsRound ((((threeMixStorage.emails.filter
              (fun e => e.sentiment == "negative")).length : ℚ) / (threeMixStorage.emails.length : ℚ)) * 100)
          neutral := jsRound ((((threeMixStorage.emails.filter
              (fun e => e.sentiment == "neutral")).length : ℚ) / (threeMixStorage.emails.length : ℚ)) * 100) }) :=
  ⟨⟨rfl, sentimentDistribution_spec.1 emptyStorage rfl⟩,
   ⟨by decide, sentimentDistribution_spec.2.1 threeMixStorage (by decide)⟩⟩

/-! ### C8: search semantics -/

/-- Sortedness predicate: `receivedAt` weakly descending. -/
def sortedByReceivedDesc (l : List Email) : Prop :=
  l.Pairwise (fun a b => b.receivedAt ≤ a.receivedAt)

/-- C8: `searchEmails` returns exactly the stored emails whose lowercased
`subject`, `body` or `sender` contains the lowercased query as a substring
(OR semantics), in `receivedAt`-descending order - precisely the `getEmails`
ordering restricted to the matches (filtering commutes with the stable sort). -/
theorem searchEmails_spec (st : Storage) (q : String) :
    (∀ e, e ∈ searchEmails st q ↔ e ∈ st.emails ∧ matchesQuery q e = true) ∧
    (∀ e, matchesQuery q e = true ↔
      ((∃ l r, (jsToLower e.subject).data = l ++ (jsToLower q).data ++ r) ∨
       (∃ l r, (jsToLower e.body).data = l ++ (jsToLower q).data ++ r) ∨
       (∃ l r, (jsToLower e.sender).data = l ++ (jsToLower q).data ++ r))) ∧
    sortedByReceivedDesc (searchEmails st q) ∧
    searchEmails st q = (insortLe recvDesc st.emails).filter (matchesQuery q) := by
  refine ⟨?_, ?_, ?_, ?_⟩
  · intro e
    unfold searchEmails
    rw [mem_insortLe, List.mem_filter]
  · intro e
    simp only [matchesQuery, Bool.or_eq_true, containsSub_iff, or_assoc]
  · exact List.Pairwise.imp (fun h => of_decide_eq_true h)
      (insortLe_sorted recvDesc_total recvDesc_trans _)
  · exact (filter_insortLe recvDesc_total recvDesc_trans st.emails).symm

/-! ### C5: idempotent draft generation -/

/-- The response record `generateResponseForEmail` persists when the email
exists and has no responses yet. -/
def freshDraftOf (w : Upstream GenPayload) (st : Storage) (email : Email) (now : Nat) :
    EmailResponse :=
  { id := st.nextResponseId
    emailId := email.id
    generatedResponse := (generateResponse w email.body email.subject email.sender
      (jsOrStr (some email.sentiment) "neutral") (jsOrStr (some email.priority) "normal")).response
    isEdited := false
    finalResponse := none
    sentAt := none
    confidence := jsOrIntNull (some (jsRound ((generateResponse w email.body email.subject
      email.sender (jsOrStr (some email.sentiment) "neutral")
      (jsOrStr (some email.priority) "normal")).confidence * 100)))
    createdAt := now }

theorem generateResponseForEmail_creates (w : Upstream GenPayload) (st : Storage)
    (id now : Nat) (email : Email)
    (hemail : getEmailById st id = some email)
    (hresp : getResponsesByEmailId st id = []) :
    generateResponseForEmail w st id now =
      ((freshDraftOf w st email now).generatedResponse,
       { st with responses := setResponse st.responses (freshDraftOf w st email now)
                 nextResponseId := st.nextResponseId + 1 }) := by
  unfold generateResponseForEmail freshDraftOf createEmailResponse
  rw [hemail, hresp]
  rfl

theorem generateResponseForEmail_existing (w : Upstream GenPayload) (st : Storage)
    (id now : Nat) (email : Email) (r : EmailResponse) (rest : List EmailResponse)
    (hemail : getEmailById st id = some email)
    (hresp : getResponsesByEmailId st id = r :: rest) :
    generateResponseForEmail w st id now = (r.generatedResponse, st) := by
  unfold generateResponseForEmail
  rw [hemail, hresp]

/-- C5: `generateResponseForEmail` is idempotent. If a response already exists,
it returns the head (most recent) draft's `generatedResponse` with the state
unchanged - for any provider behaviour, i.e. without consulting the AI client.
From a no-draft state, two successive calls return the identical string, the
second leaves the state of the first untouched, and exactly one `EmailResponse`
exists for the email afterwards (none before). -/
theorem generateResponseForEmail_idempotent (st : Storage) (id : Nat) (email : Email)
    (hwf : WFStorage st) (hemail : getEmailById st id = some email) :
    (∀ r rest, getResponsesByEmailId st id = r :: rest →
      ∀ (w : Upstream GenPayload) (now : Nat),
        generateResponseForEmail w st id now = (r.generatedResponse, st)) ∧
    (getResponsesByEmailId st id = [] →
      ∀ (w₁ w₂ : Upstream GenPayload) (now₁ now₂ : Nat),
        (generateResponseForEmail w₂
            (generateResponseForEmail w₁ st id now₁).2 id now₂).1 =
          (generateResponseForEmail w₁ st id now₁).1 ∧
        (generateResponseForEmail w₂
            (generateResponseForEmail w₁ st id now₁).2 id now₂).2 =
          (generateResponseForEmail w₁ st id now₁).2 ∧
        ((generateResponseForEmail w₁ st id now₁).2.responses.filter
          (fun r => r.emailId == id)).length = 1 ∧
        (st.responses.filter (fun r => r.emailId == id)).length = 0) := by
  have hid : email.id = id := by
    have := List.find?_some hemail
    simpa using this
  constructor
  · intro r rest hresp w now
    exact generateResponseForEmail_existing w st id now email r rest hemail hresp
  · intro hresp w₁ w₂ now₁ now₂
    have hfil : st.responses.filter (fun r => r.emailId == id) = [] := by
      have h' := hresp
      unfold getResponsesByEmailId at h'
      exact (insortLe_eq_nil createdDesc _).mp h'
    have happ : setResponse st.responses (freshDraftOf w₁ st email now₁) =
        st.responses ++ [freshDraftOf w₁ st email now₁] := by
      apply setResponse_fresh
      intro y hy
      exact Nat.ne_of_lt (hwf.2.1 y hy)
    have hc1 := generateResponseForEmail_creates w₁ st id now₁ email hemail hresp
    -- the state after the first call
    have hstate : (generateResponseForEmail w₁ st id now₁).2 =
        { st with responses := st.responses ++ [freshDraftOf w₁ st email now₁]
                  nextResponseId := st.nextResponseId + 1 } := by
      rw [hc1, ← happ]
    have hemail' : getEmailById (generateResponseForEmail w₁ st id now₁).2 id = some email := by
      rw [hstate]
      exact hemail
    have hresp' : getResponsesByEmailId (generateResponseForEmail w₁ st id now₁).2 id =
        [freshDraftOf w₁ st email now₁] := by
      rw [hstate]
      unfold getResponsesByEmailId
      show insortLe createdDesc ((st.responses ++ [freshDraftOf w₁ st email now₁]).filter
        (fun r => r.emailId == id)) = _
      rw [List.filter_append, hfil, List.nil_append, List.filter_cons,
        if_pos (by simp [freshDraftOf, hid]), List.filter_nil]
      rfl
    have hc2 : generateResponseForEmail w₂ (generateResponseForEmail w₁ st id now₁).2 id now₂ =
        ((freshDraftOf w₁ st email now₁).generatedResponse,
         (generateResponseForEmail w₁ st id now₁).2) :=
      generateResponseForEmail_existing w₂ _ id now₂ email (freshDraftOf w₁ st email now₁) []
        hemail' hresp'
    refine ⟨?_, ?_, ?_, ?_⟩
    · rw [hc2, hc1]
    · rw [hc2]
    · rw [hstate]
      show ((st.responses ++ [freshDraftOf w₁ st email now₁]).filter
        (fun r => r.emailId == id)).length = 1
      rw [List.filter_append, hfil, List.nil_append, List.filter_cons,
        if_pos (by simp [freshDraftOf, hid]), List.filter_nil]
      rfl
    · rw [hfil]
      rfl

/-- A concrete stored email with no responses. -/
def oneEmail : Email :=
  { id := 1, sender := "a@x.com", subject := "Help", body := "B", receivedAt := 1
    priority := "normal", sentiment := "neutral", category := none
    extractedInfo := none, isProcessed := true, createdAt := 1 }

/-- Storage holding exactly `oneEmail` and no responses. -/
def oneEmailStorage : Storage :=
  { emails := [oneEmail], responses := [], nextEmailId := 2, nextResponseId := 1 }

/-- C5 witness: the idempotence theorem applied at the concrete one-email,
no-draft storage. -/
theorem generateResponseForEmail_idempotent_witness :
    WFStorage oneEmailStorage ∧
    getEmailById oneEmailStorage 1 = some oneEmail ∧
    ((∀ r rest, getResponsesByEmailId oneEmailStorage 1 = r :: rest →
      ∀ (w : Upstream GenPayload) (now : Nat),
        generateResponseForEmail w oneEmailStorage 1 now = (r.generatedResponse, oneEmailStorage)) ∧
    (getResponsesByEmailId oneEmailStorage 1 = [] →
      ∀ (w₁ w₂ : Upstream GenPayload) (now₁ now₂ : Nat),
        (generateResponseForEmail w₂
            (generateResponseForEmail w₁ oneEmailStorage 1 now₁).2 1 now₂).1 =
          (generateResponseForEmail w₁ oneEmailStorage 1 now₁).1 ∧
        (generateResponseForEmail w₂
            (generateResponseForEmail w₁ oneEmailStorage 1 now₁).2 1 now₂).2 =
          (generateResponseForEmail w₁ oneEmailStorage 1 now₁).2 ∧
        ((generateResponseForEmail w₁ oneEmailStorage 1 now₁).2.responses.filter
          (fun r => r.emailId == 1)).length = 1 ∧
        (oneEmailStorage.responses.filter (fun r => r.emailId == 1)).length = 0)) :=
  ⟨by decide, rfl,
    generateResponseForEmail_idempotent oneEmailStorage 1 oneEmail (by decide) rfl⟩

/-! ### C6: sending a response -/

/-- C6: `sendResponse` on an email with no responses throws the
"No response found for this email" error with the state unchanged; otherwise
it updates the head of the `createdAt`-descending response list (the
most-recent response: every other response for the email has `createdAt` no
larger) to carry `finalResponse = finalText`, `sentAt = now` (non-null) and
`isEdited = (finalText !== generatedResponse)`, leaving every other record
and the emails untouched. -/
theorem sendResponse_spec (st : Storage) (id : Nat) (t : String) (now : Nat)
    (hwf : WFStorage st) :
    (getResponsesByEmailId st id = [] →
      sendResponse st id t now = (Except.error "No response found for this email", st)) ∧
    (∀ r rest, getResponsesByEmailId st id = r :: rest →
      (∀ x ∈ rest, x.createdAt ≤ r.createdAt) ∧
      ∃ st', sendResponse st id t now = (Except.ok (), st') ∧
        st'.emails = st.emails ∧
        st'.responses.find? (fun y => y.id == r.id) = some (sentUpdateOf r t now) ∧
        (sentUpdateOf r t now).finalResponse = some t ∧
        (sentUpdateOf r t now).sentAt = some now ∧
        (sentUpdateOf r t now).isEdited = (t != r.generatedResponse) ∧
        st'.responses.length = st.responses.length ∧
        (∀ x ∈ st.responses, x.id ≠ r.id → x ∈ st'.responses)) := by
  constructor
  · intro h
    unfold sendResponse
    rw [h]
  · intro r rest hresp
    constructor
    · have hs' : (getResponsesByEmailId st id).Pairwise (fun a b => createdDesc a b = true) :=
        insortLe_sorted createdDesc_total createdDesc_trans _
      rw [hresp, List.pairwise_cons] at hs'
      intro x hx
      exact of_decide_eq_true (hs'.1 x hx)
    · have heq := sendResponse_eq_of_head t now hwf.2.2.2.1 hresp
      obtain ⟨l₁, l₂, hsplit, hset, hids⟩ := setResponse_decomp st.responses r
        (sentUpdateOf r t now) (head_responses_mem hresp).1 hwf.2.2.2.1 rfl
      refine ⟨_, heq, rfl, ?_, rfl, rfl, rfl, ?_, ?_⟩
      · show (setResponse st.responses (sentUpdateOf r t now)).find?
          (fun y => y.id == r.id) = some (sentUpdateOf r t now)
        rw [hset, find?_append_none _ l₁ _ ?_, List.find?_cons_of_pos _ (by simp [sentUpdateOf])]
        intro y hy
        simp only [beq_eq_false_iff_ne]
        exact hids y (Or.inl hy)
      · show (setResponse st.responses (sentUpdateOf r t now)).length = st.responses.length
        rw [hset, hsplit]
        simp [List.length_append]
      · intro x hx hxid
        show x ∈ setResponse st.responses (sentUpdateOf r t now)
        rw [hset]
        rw [hsplit] at hx
        rcases List.mem_append.mp hx with hx | hx
        · exact List.mem_append.mpr (Or.inl hx)
        · rcases List.mem_cons.mp hx with rfl | hx
          · exact absurd rfl hxid
          · exact List.mem_append.mpr (Or.inr (List.mem_cons_of_mem _ hx))

/-- A concrete unsent draft for `oneEmail`. -/
def oneDraft : EmailResponse :=
  { id := 1, emailId := 1, generatedResponse := "draft text", isEdited := false
    finalResponse := none, sentAt := none, confidence := some 80, createdAt := 5 }

/-- Storage holding `oneEmail` with the single unsent `oneDraft`. -/
def oneDraftStorage : Storage :=
  { emails := [oneEmail], responses := [oneDraft], nextEmailId := 2, nextResponseId := 2 }

/-- C6 witness: the send theorem applied at a concrete one-draft storage. -/
theorem sendResponse_spec_witness :
    WFStorage oneDraftStorage ∧
    ((getResponsesByEmailId oneDraftStorage 1 = [] →
      sendResponse oneDraftStorage 1 "Fixed, thanks" 10 =
        (Except.error "No response found for this email", oneDraftStorage)) ∧
    (∀ r rest, getResponsesByEmailId oneDraftStorage 1 = r :: rest →
      (∀ x ∈ rest, x.createdAt ≤ r.createdAt) ∧
      ∃ st', sendResponse oneDraftStorage 1 "Fixed, thanks" 10 = (Except.ok (), st') ∧
        st'.emails = oneDraftStorage.emails ∧
        st'.responses.find? (fun y => y.id == r.id) = some (sentUpdateOf r "Fixed, thanks" 10) ∧
        (sentUpdateOf r "Fixed, thanks" 10).finalResponse = some "Fixed, thanks" ∧
        (sentUpdateOf r "Fixed, thanks" 10).sentAt = some 10 ∧
        (sentUpdateOf r "Fixed, thanks" 10).isEdited = ("Fixed, thanks" != r.generatedResponse) ∧
        st'.responses.length = oneDraftStorage.responses.length ∧
        (∀ x ∈ oneDraftStorage.responses, x.id ≠ r.id → x ∈ st'.responses))) :=
  ⟨by decide, sendResponse_spec oneDraftStorage 1 "Fixed, thanks" 10 (by decide)⟩

/-! ### C1: resolved-email accounting -/

/-- One email with two responses, both already sent. -/
def twoSentStorage : Storage :=
  { emails := [oneEmail]
    responses :=
      [ { id := 1, emailId := 1, generatedResponse := "d1", isEdited := true
          finalResponse := some "x", sentAt := some 5, confidence := none, createdAt := 1 },
        { id := 2, emailId := 1, generatedResponse := "d2", isEdited := true
          finalResponse := some "y", sentAt := some 6, confidence := none, createdAt := 2 } ]
    nextEmailId := 2
    nextResponseId := 3 }

/-- C1 counterexample: `getEmailStats` counts sent responses, not distinct
resolved emails: with one email carrying two sent responses it reports
`resolvedEmails = 2` while only 1 distinct email is resolved (and hence
`pendingEmails = -1`). -/
theorem resolvedEmails_counts_responses_not_distinct_emails :
    (getEmailStats twoSentStorage).resolvedEmails = 2 ∧
    distinctResolvedEmails twoSentStorage = 1 ∧
    (getEmailStats twoSentStorage).resolvedEmails ≠ distinctResolvedEmails twoSentStorage ∧
    (getEmailStats twoSentStorage).totalEmails = 1 ∧
    (getEmailStats twoSentStorage).pendingEmails = -1 := by decide

/-- C1 (amended): `resolvedEmails` equals the number of `EmailResponse`
records with non-null `sentAt` (responses, not distinct emails);
`pendingEmails + resolvedEmails = totalEmails` holds by construction; the
first successful `sendResponse` for a previously-unresolved email (one with no
sent response) increases `resolvedEmails` by exactly 1, and an immediately
following `sendResponse` for the same email does not change it. -/
theorem emailStats_resolved_accounting_amended (st : Storage) (id : Nat) (t : String)
    (now : Nat) (hwf : WFStorage st) :
    ((getEmailStats st).resolvedEmails = countSentResponses st ∧
     (getEmailStats st).pendingEmails + ((getEmailStats st).resolvedEmails : Int) =
       ((getEmailStats st).totalEmails : Int)) ∧
    ((∀ r ∈ st.responses, r.emailId = id → r.sentAt = none) →
      ∀ st', sendResponse st id t now = (Except.ok (), st') →
        countSentResponses st' = countSentResponses st + 1) ∧
    (∀ st', sendResponse st id t now = (Except.ok (), st') →
      ∀ (t₂ : String) (now₂ : Nat) (st'' : Storage),
        sendResponse st' id t₂ now₂ = (Except.ok (), st'') →
        countSentResponses st'' = countSentResponses st') := by
  refine ⟨⟨rfl, ?_⟩, ?_, ?_⟩
  · show ((st.emails.length : Int) - (countSentResponses st : Int)) +
      (countSentResponses st : Int) = (st.emails.length : Int)
    omega
  · intro hunres st' hok
    obtain ⟨r, rest, l₁, l₂, hresp, hrid, hsplit, hset, hids, hem, hne, hnr⟩ :=
      sendResponse_ok_decomp hwf hok
    have hrsent : r.sentAt = none :=
      hunres r (by
        rw [hsplit]
        exact List.mem_append.mpr (Or.inr (List.mem_cons_self r l₂))) hrid
    show countSentIn st'.responses = countSentIn st.responses + 1
    rw [hset, hsplit, countSentIn_middle, countSentIn_middle,
      if_pos (show (sentUpdateOf r t now).sentAt.isSome = true from rfl),
      if_neg (show ¬r.sentAt.isSome = true by rw [hrsent]; simp)]
    omega
  · intro st' hok t₂ now₂ st'' hok₂
    have hwf' := wf_after_sendResponse hwf hok
    obtain ⟨r₂, rest₂, m₁, m₂, hresp₂, hrid₂, hsplit₂, hset₂, hids₂, hem₂, hne₂, hnr₂⟩ :=
      sendResponse_ok_decomp hwf' hok₂
    have hsent₂ : r₂.sentAt = some now := head_sent_after_sendResponse hwf hok hresp₂
    show countSentIn st''.responses = countSentIn st'.responses
    rw [hset₂, hsplit₂, countSentIn_middle, countSentIn_middle,
      if_pos (show (sentUpdateOf r₂ t₂ now₂).sentAt.isSome = true from rfl),
      if_pos (show r₂.sentAt.isSome = true by rw [hsent₂]; rfl)]

/-- C1 witness: the amended accounting theorem applied at the concrete
one-unsent-draft storage. -/
theorem emailStats_resolved_accounting_amended_witness :
    WFStorage oneDraftStorage ∧
    (((getEmailStats oneDraftStorage).resolvedEmails = countSentResponses oneDraftStorage ∧
     (getEmailStats oneDraftStorage).pendingEmails +
       ((getEmailStats oneDraftStorage).resolvedEmails : Int) =
       ((getEmailStats oneDraftStorage).totalEmails : Int)) ∧
    ((∀ r ∈ oneDraftStorage.responses, r.emailId = 1 → r.sentAt = none) →
      ∀ st', sendResponse oneDraftStorage 1 "Fixed" 10 = (Except.ok (), st') →
        countSentResponses st' = countSentResponses oneDraftStorage + 1) ∧
    (∀ st', sendResponse oneDraftStorage 1 "Fixed" 10 = (Except.ok (), st') →
      ∀ (t₂ : String) (now₂ : Nat) (st'' : Storage),
        sendResponse st' 1 t₂ now₂ = (Except.ok (), st'') →
        countSentResponses st'' = countSentResponses st')) :=
  ⟨by decide, emailStats_resolved_accounting_amended oneDraftStorage 1 "Fixed" 10 (by decide)⟩
